import Mathlib

/-!
# http2grpc: the response interceptor and the status-code mapper

A shallow embedding of `src/grpc/grpc.go` and `src/http2grpc.go`.

Conventions of the embedding.

* A Go `int` is an `Int`; no arithmetic is done on status codes, so no
  overflow can occur.
* A Go `[]byte` is a `List UInt8`.
* A Go `string` is a byte sequence.  It is represented by the Lean `String`
  that has one character per byte (the character whose code is the byte), so
  every ASCII literal of the source represents itself and `string(buf)` is
  the injective map `goString`.
* `http.Header` is a `map[string][]string`; it is represented by its lookup
  function.  `Set`, `Add`, `Del`, `Get` and `Values` canonicalise the key
  with `CanonicalMIMEHeaderKey`, as `net/http` does.
* The wrapped `http.ResponseWriter` is the downstream sink.  The sink owns
  the header map, and every call the modifier makes on it is appended to a
  trace of calls.  What the sink answers to `Write` is a field of the sink.
-/

namespace Http2grpc

/-! ## Package grpc (src/grpc/grpc.go) -/

namespace grpc

def OK : Int := 0
def CANCELLED : Int := 1
def UNKNOWN : Int := 2
def INVALID_ARGUMENT : Int := 3
def DEADLINE_EXCEEDED : Int := 4
def NOT_FOUND : Int := 5
def ALREADY_EXISTS : Int := 6
def PERMISSION_DENIED : Int := 7
def RESOURCE_EXHAUSTED : Int := 8
def FAILED_PRECONDITION : Int := 9
def ABORTED : Int := 10
def OUT_OF_RANGE : Int := 11
def UNIMPLEMENTED : Int := 12
def INTERNAL : Int := 13
def UNAVAILABLE : Int := 14
def DATA_LOSS : Int := 15
def UNAUTHENTICATED : Int := 16

end grpc

/-! ## Constants of net/http used by the source -/

def StatusOK : Int := 200
def StatusBadRequest : Int := 400
def StatusUnauthorized : Int := 401
def StatusForbidden : Int := 403
def StatusNotFound : Int := 404
def StatusTooManyRequests : Int := 429
def StatusBadGateway : Int := 502
def StatusServiceUnavailable : Int := 503
def StatusGatewayTimeout : Int := 504

namespace grpc

/-- The map literal `HTTP2grpc`, as the list of its key/value pairs. -/
def HTTP2grpcEntries : List (Int × Int) :=
  [ (StatusBadRequest, INTERNAL),
    (StatusUnauthorized, UNAUTHENTICATED),
    (StatusForbidden, PERMISSION_DENIED),
    (StatusNotFound, UNIMPLEMENTED),
    (StatusTooManyRequests, UNAVAILABLE),
    (StatusBadGateway, UNAVAILABLE),
    (StatusServiceUnavailable, UNAVAILABLE),
    (StatusGatewayTimeout, UNAVAILABLE) ]

/-- The two-valued map index `grpcCode, ok := HTTP2grpc[k]`: `some grpcCode`
when `ok`, `none` otherwise. -/
def HTTP2grpc (k : Int) : Option Int :=
  (HTTP2grpcEntries.find? (fun e => e.1 == k)).map Prod.snd

end grpc

/-- The decimal digits of a natural number, most significant first. -/
def decimalDigits : Nat → Nat → List Char
  | 0, _ => []
  | fuel + 1, n =>
    if n < 10 then [Char.ofNat (48 + n)]
    else decimalDigits fuel (n / 10) ++ [Char.ofNat (48 + n % 10)]

/-- Go `strconv.Itoa`: the decimal rendering of an integer, with a leading
minus sign for a negative one. -/
def Itoa (i : Int) : String :=
  match i with
  | Int.ofNat n => String.mk (decimalDigits (n + 1) n)
  | Int.negSucc n => String.mk ('-' :: decimalDigits (n + 2) (n + 1))

/-- Source: `getGrpcStatusCode` (src/http2grpc.go). -/
def getGrpcStatusCode (httpStatusCode : Int) : String :=
  if httpStatusCode = StatusOK then
    Itoa grpc.OK
  else
    match grpc.HTTP2grpc httpStatusCode with
    | some grpcCode => Itoa grpcCode
    | none => Itoa grpc.UNKNOWN

/-! ## net/http: Header -/

/-- Go `http.Header`, a `map[string][]string`, as its lookup function:
`none` for a key that is not in the map. -/
abbrev Header := String → Option (List String)

/-- Go `textproto.validHeaderFieldByte`: the token characters of RFC 7230
(letters, digits and the fifteen marks, given by their codes). -/
def validHeaderFieldByte (c : Char) : Bool :=
  c.isAlphanum ||
    [33, 35, 36, 37, 38, 39, 42, 43, 45, 46, 94, 95, 96, 124, 126].contains c.toNat

/-- The rewriting loop of Go `textproto.canonicalMIMEHeaderKey`: the first
letter and every letter after a hyphen in upper case, the others in lower
case. -/
def canonicalMIMEHeaderKey : Bool → List Char → List Char
  | _, [] => []
  | upper, c :: cs =>
    let d := if upper && c.isLower then c.toUpper
             else if !upper && c.isUpper then c.toLower else c
    d :: canonicalMIMEHeaderKey (d == '-') cs

/-- Go `textproto.CanonicalMIMEHeaderKey`: a key with a byte that is not a
token character is returned unchanged. -/
def CanonicalMIMEHeaderKey (s : String) : String :=
  if s.data.all validHeaderFieldByte then String.mk (canonicalMIMEHeaderKey true s.data)
  else s

namespace Header

/-- Go `Header.Get`: the first value of the key, `""` when there is none. -/
def Get (h : Header) (key : String) : String :=
  match h (CanonicalMIMEHeaderKey key) with
  | some (v :: _) => v
  | _ => ""

/-- Go `Header.Values`: all values of the key. -/
def Values (h : Header) (key : String) : List String :=
  (h (CanonicalMIMEHeaderKey key)).getD []

/-- Go `Header.Set`: the key now has the single value. -/
def Set (h : Header) (key value : String) : Header :=
  fun k => if k = CanonicalMIMEHeaderKey key then some [value] else h k

/-- Go `Header.Add`: the value is appended to the values of the key. -/
def Add (h : Header) (key value : String) : Header :=
  fun k => if k = CanonicalMIMEHeaderKey key then some ((h k).getD [] ++ [value]) else h k

/-- Go `Header.Del`: the key is removed from the map. -/
def Del (h : Header) (key : String) : Header :=
  fun k => if k = CanonicalMIMEHeaderKey key then none else h k

end Header

/-! ## The downstream sink (the wrapped http.ResponseWriter) -/

/-- A call made on the downstream sink. -/
inductive SinkCall where
  | writeHeader (statusCode : Int)
  | write (body : List UInt8)
  | flush
  | hijack
  deriving DecidableEq, Repr

/-- Go `error`: `none` is `nil`, `some msg` an error with that message. -/
abbrev GoError := Option String

/-- The wrapped `http.ResponseWriter`.  `header` is the map returned by its
`Header()`, `calls` the calls received so far (oldest first).  `isFlusher`
and `isHijacker` say whether the dynamic type also implements `http.Flusher`
and `http.Hijacker`, `typeName` is what `%T` prints for it.  `writeReply`
and `hijackReply` are what the sink answers, given its header map and the
calls it has received before. -/
structure ResponseWriter where
  header : Header
  calls : List SinkCall
  isFlusher : Bool
  isHijacker : Bool
  typeName : String
  writeReply : Header → List SinkCall → List UInt8 → Int × GoError
  hijackReply : Header → List SinkCall → GoError

namespace ResponseWriter

/-- A mutation of the map returned by `Header()`. -/
def withHeader (rw : ResponseWriter) (f : Header → Header) : ResponseWriter :=
  { rw with header := f rw.header }

/-- The sink receives `WriteHeader(statusCode)`. -/
def WriteHeader (rw : ResponseWriter) (statusCode : Int) : ResponseWriter :=
  { rw with calls := rw.calls ++ [SinkCall.writeHeader statusCode] }

/-- The sink receives `Write(body)` and answers with a count and an error. -/
def Write (rw : ResponseWriter) (body : List UInt8) : ResponseWriter × Int × GoError :=
  ({ rw with calls := rw.calls ++ [SinkCall.write body] }, rw.writeReply rw.header rw.calls body)

/-- The sink receives `Flush()`. -/
def Flush (rw : ResponseWriter) : ResponseWriter :=
  { rw with calls := rw.calls ++ [SinkCall.flush] }

/-- The sink receives `Hijack()` and answers with an error or `nil`. -/
def Hijack (rw : ResponseWriter) : ResponseWriter × GoError :=
  ({ rw with calls := rw.calls ++ [SinkCall.hijack] }, rw.hijackReply rw.header rw.calls)

/-- The status codes the sink has received, oldest first. -/
def statusCodes (rw : ResponseWriter) : List Int :=
  rw.calls.filterMap fun c => match c with
    | SinkCall.writeHeader s => some s
    | _ => none

/-- The buffers the sink has received through `Write`, oldest first. -/
def bodies (rw : ResponseWriter) : List (List UInt8) :=
  rw.calls.filterMap fun c => match c with
    | SinkCall.write b => some b
    | _ => none

/-- All body bytes the sink has received, in order. -/
def body (rw : ResponseWriter) : List UInt8 :=
  rw.bodies.flatten

/-- How many times the sink has been flushed. -/
def flushCount (rw : ResponseWriter) : Nat :=
  rw.calls.count SinkCall.flush

end ResponseWriter

/-! ## Package http2grpc (src/http2grpc.go) -/

def GrpcStatusHeaderName : String := "grpc-status"
def GrpcMessageHeaderName : String := "grpc-message"
def TrailerHeaderName : String := "Trailer"
def ContentLengthHeaderName : String := "Content-Length"
def ContentTypeHeaderName : String := "Content-Type"
def ContentTypeHeaderGrpcValue : String := "application/grpc"
def ContentTypeHeaderGrpcWithBodyValue : String := "application/grpc+proto"

/-- Source: `EmptyGrpcBody`. -/
def EmptyGrpcBody : List UInt8 := [0x00, 0x00, 0x00, 0x00, 0x00]

/-- Go `string(buf)`: the string with the bytes of `buf`, one character per
byte. -/
def goString (buf : List UInt8) : String :=
  String.mk (buf.map fun b => Char.ofNat b.toNat)

/-- Source: `type http2grpcModifier struct`.  `responseWriterFlusher` is
`true` when the field is not `nil`; it then is the wrapped writer itself. -/
structure http2grpcModifier where
  responseWriter : ResponseWriter
  responseWriterFlusher : Bool
  sentHTTPStatusCode : Int
  backendUseGrpc : Bool
  bodyAsStatusMessage : Bool
  headerSent : Bool

/-- Source: `newHTTP2grpcModifier`. -/
def newHTTP2grpcModifier (rw : ResponseWriter) (bodyAsStatusMessage : Bool) :
    http2grpcModifier :=
  let http2grpcMod : http2grpcModifier :=
    { responseWriter := rw
      responseWriterFlusher := false
      sentHTTPStatusCode := StatusOK
      backendUseGrpc := false
      bodyAsStatusMessage := bodyAsStatusMessage
      headerSent := false }
  if rw.isFlusher then { http2grpcMod with responseWriterFlusher := true }
  else http2grpcMod

namespace http2grpcModifier

/-- Source: `http2grpcModifier.Header`: the header map of the wrapped
writer. -/
def Header (h : http2grpcModifier) : Http2grpc.Header :=
  h.responseWriter.header

/-- Source: `http2grpcModifier.checkResponseInGrpcFormat`. -/
def checkResponseInGrpcFormat (h : http2grpcModifier) : Bool :=
  let contentType := h.responseWriter.header.Get ContentTypeHeaderName
  let contentTypeIsGrpc := (contentType == ContentTypeHeaderGrpcValue) ||
    (contentType == ContentTypeHeaderGrpcWithBodyValue)
  contentTypeIsGrpc

/-- Source: `http2grpcModifier.convertHTTPToGrpc`. -/
def convertHTTPToGrpc (h : http2grpcModifier) (statusCode : Int) : http2grpcModifier :=
  let rw := h.responseWriter
  let rw := rw.withHeader fun hd => hd.Set TrailerHeaderName GrpcStatusHeaderName
  let rw := rw.withHeader fun hd => hd.Add TrailerHeaderName GrpcMessageHeaderName
  let rw := rw.withHeader fun hd => hd.Set ContentTypeHeaderName ContentTypeHeaderGrpcValue
  let rw := rw.withHeader fun hd => hd.Del ContentLengthHeaderName
  let rw := rw.WriteHeader StatusOK
  let grpcCodeString := getGrpcStatusCode statusCode
  let rw := rw.withHeader fun hd => hd.Set GrpcStatusHeaderName grpcCodeString
  let rw := if !h.bodyAsStatusMessage then
      rw.withHeader fun hd => hd.Set GrpcMessageHeaderName ""
    else rw
  { h with responseWriter := rw }

/-- Source: `http2grpcModifier.WriteHeader`. -/
def WriteHeader (h : http2grpcModifier) (statusCode : Int) : http2grpcModifier :=
  if h.headerSent then h
  else
    let isHTTPResponseFromBackend := !h.checkResponseInGrpcFormat
    let h := if isHTTPResponseFromBackend then h.convertHTTPToGrpc statusCode
      else { h with responseWriter := h.responseWriter.WriteHeader StatusOK
                    backendUseGrpc := true }
    { h with sentHTTPStatusCode := statusCode, headerSent := true }

/-- Source: `http2grpcModifier.Write`: the new state, the count and the
error. -/
def Write (h : http2grpcModifier) (buf : List UInt8) : http2grpcModifier × Int × GoError :=
  let isHTTPResponseFromBackend := !h.backendUseGrpc
  let isNotOkStatusFromBackend := h.sentHTTPStatusCode != StatusOK
  let h := h.WriteHeader StatusOK
  let h := if isHTTPResponseFromBackend && isNotOkStatusFromBackend && h.bodyAsStatusMessage then
      { h with responseWriter :=
          h.responseWriter.withHeader fun hd => hd.Set GrpcMessageHeaderName (goString buf) }
    else h
  let body := if isHTTPResponseFromBackend && isNotOkStatusFromBackend then EmptyGrpcBody
    else buf
  let (rw, count, err) := h.responseWriter.Write body
  let h := { h with responseWriter := rw }
  let h := if h.responseWriterFlusher then
      { h with responseWriter := h.responseWriter.Flush }
    else h
  (h, count, err)

/-- Source: `http2grpcModifier.Hijack`: the new state and the error (the
connection handed over by the sink is not modelled). -/
def Hijack (h : http2grpcModifier) : http2grpcModifier × GoError :=
  if !h.responseWriter.isHijacker then
    (h, some ("ERROR: http2grpc: " ++ h.responseWriter.typeName ++ " is not a http.Hijacker"))
  else
    let (rw, err) := h.responseWriter.Hijack
    ({ h with responseWriter := rw }, err)

/-- Source: `http2grpcModifier.Flush`. -/
def Flush (h : http2grpcModifier) : http2grpcModifier :=
  let h := h.WriteHeader StatusOK
  if h.responseWriter.isFlusher then { h with responseWriter := h.responseWriter.Flush }
  else h

end http2grpcModifier

/-! ## Sequences of operations of the backend -/

/-- An operation of the backend on the modifier.  `Header mutate` is a call
of `Header()` followed by the mutation `mutate` of the returned map. -/
inductive Op where
  | Header (mutate : Header → Header)
  | WriteHeader (statusCode : Int)
  | Write (buf : List UInt8)
  | Flush
  | Hijack

/-- The state after one operation. -/
def step (h : http2grpcModifier) : Op → http2grpcModifier
  | Op.Header mutate => { h with responseWriter := h.responseWriter.withHeader mutate }
  | Op.WriteHeader statusCode => h.WriteHeader statusCode
  | Op.Write buf => (h.Write buf).1
  | Op.Flush => h.Flush
  | Op.Hijack => h.Hijack.1

/-- The state after a sequence of operations, in order. -/
def run (h : http2grpcModifier) (ops : List Op) : http2grpcModifier :=
  ops.foldl step h

/-- Whether the operation commits the response when none is committed yet:
an explicit status write, a body write or a flush. -/
def Op.commits : Op → Bool
  | Op.WriteHeader _ => true
  | Op.Write _ => true
  | Op.Flush => true
  | _ => false

/-- The status code that the commit made by the operation passes on:
the argument of `WriteHeader`, and `http.StatusOK` from `Write` and `Flush`. -/
def Op.commitStatus : Op → Int
  | Op.WriteHeader statusCode => statusCode
  | _ => StatusOK

/-- Whether the operation is the backend changing the header map itself. -/
def Op.mutatesHeader : Op → Bool
  | Op.Header _ => true
  | _ => false

/-- The status passed to the most recent `WriteHeader` call of the sequence,
`none` when the sequence has no such call. -/
def lastReportedStatus : List Op → Option Int
  | [] => none
  | o :: ops =>
    match lastReportedStatus ops with
    | some s => some s
    | none =>
      match o with
      | Op.WriteHeader s => some s
      | _ => none

/-- The status of the commit of a sequence of operations on a fresh modifier:
the status passed on by its first committing operation, `http.StatusOK` when
no operation commits. -/
def firstCommitStatus (ops : List Op) : Int :=
  match ops.find? Op.commits with
  | some c => c.commitStatus
  | none => StatusOK

/-! ## The status-code mapper -/

/-- The documented table of the mapper, HTTP status to gRPC code. -/
def documentedCode (s : Int) : Int :=
  if s = 200 then 0
  else if s = 400 then 13
  else if s = 401 then 16
  else if s = 403 then 7
  else if s = 404 then 12
  else if s = 429 ∨ s = 502 ∨ s = 503 ∨ s = 504 then 14
  else 2

/-! ## Definitions used in the statements -/

/-- The header map after the conversion, key by key. -/
def convertedHeader (hd : Header) (m : Bool) (s : Int) : Header :=
  fun k =>
    if k = "Grpc-Message" ∧ m = false then some [""]
    else if k = "Grpc-Status" then some [getGrpcStatusCode s]
    else if k = "Content-Length" then none
    else if k = "Content-Type" then some ["application/grpc"]
    else if k = "Trailer" then some ["grpc-status", "grpc-message"]
    else hd k

/-- The body that `Write` hands to the sink: the empty frame when the
response was converted and the stored status is not 200, the buffer
otherwise. -/
def sentBody (h : http2grpcModifier) (buf : List UInt8) : List UInt8 :=
  if (!h.backendUseGrpc && h.sentHTTPStatusCode != StatusOK) = true then EmptyGrpcBody else buf

/-- The header map after `Write` on a committed modifier. -/
def writtenHeader (h : http2grpcModifier) (buf : List UInt8) : Header :=
  if (!h.backendUseGrpc && h.sentHTTPStatusCode != StatusOK && h.bodyAsStatusMessage) = true
  then h.responseWriter.header.Set GrpcMessageHeaderName (goString buf)
  else h.responseWriter.header

/-- The calls `Write` makes on the sink: the write, then the flush when the
sink can flush. -/
def writeCalls (h : http2grpcModifier) (buf : List UInt8) : List SinkCall :=
  if h.responseWriterFlusher = true then [SinkCall.write (sentBody h buf), SinkCall.flush]
  else [SinkCall.write (sentBody h buf)]

/-- A sink in the manner of `httptest.NewRecorder()`: an empty header map, no
call received, flushing supported, hijacking not, every write accepted in
full. -/
def recorder : ResponseWriter :=
  { header := fun _ => none
    calls := []
    isFlusher := true
    isHijacker := false
    typeName := "*httptest.ResponseRecorder"
    writeReply := fun _ _ body => (body.length, none)
    hijackReply := fun _ _ => none }

/-- The recorder after the backend has filled its header map. -/
def recorderWith (hd : Header) : ResponseWriter :=
  { recorder with header := hd }

/-- The empty header map. -/
def emptyHeader : Header := fun _ => none

/-! ## Construction of the handler (src/http2grpc.go) -/

/-- Source: `type Config struct`. -/
structure Config where
  LogLevel : String
  BodyAsStatusMessage : Bool

/-- Source: `CreateConfig`. -/
def CreateConfig : Config :=
  { BodyAsStatusMessage := false
    LogLevel := "info" }

/-- Source: `type HTTP2Grpc struct`; `Handler` is the type of the next
`http.Handler`. -/
structure HTTP2Grpc (Handler : Type) where
  next : Handler
  config : Config
  name : String

/-- The two package loggers `LoggerINFO` and `LoggerDEBUG`: whether the
output of each has been set to `os.Stdout` (it is `ioutil.Discard` before). -/
structure Loggers where
  infoToStdout : Bool
  debugToStdout : Bool

/-- Source: `New`: the loggers after the call and the handler or the error
(`Except.error msg` is the Go result `nil, err` with `err.Error() = msg`). -/
def New {Handler : Type} (loggers : Loggers) (next : Handler) (config : Config)
    (name : String) : Loggers × Except String (HTTP2Grpc Handler) :=
  if config.LogLevel = "info" then
    ({ loggers with infoToStdout := true },
      Except.ok { next := next, name := name, config := config })
  else if config.LogLevel = "debug" then
    ({ loggers with infoToStdout := true, debugToStdout := true },
      Except.ok { next := next, name := name, config := config })
  else
    (loggers, Except.error ("ERROR: http2grpc: " ++ config.LogLevel))

/-- Whether `New` returned a handler and no error. -/
def succeeded {Handler : Type} (r : Loggers × Except String (HTTP2Grpc Handler)) : Bool :=
  match r.2 with
  | Except.ok _ => true
  | Except.error _ => false

/-- The message of the error returned by `New`, `none` when it returned a
handler. -/
def errorMessage {Handler : Type} (r : Loggers × Except String (HTTP2Grpc Handler)) :
    Option String :=
  match r.2 with
  | Except.ok _ => none
  | Except.error msg => some msg

/-- The loggers of a process in which `New` has not been called yet. -/
def discardLoggers : Loggers :=
  { infoToStdout := false
    debugToStdout := false }

/-! ## The downstream write made by Write -/

/-- The sink at the moment `Write` calls its `Write` (source lines 126 to
144): after the commit step with `http.StatusOK`, and after `grpc-message`
has been set when the response is converted, the stored status is not 200 and
`bodyAsStatusMessage` is on.  The two flags are read before the commit
step. -/
def sinkAtWrite (h : http2grpcModifier) (buf : List UInt8) : ResponseWriter :=
  let isHTTPResponseFromBackend := !h.backendUseGrpc
  let isNotOkStatusFromBackend := h.sentHTTPStatusCode != StatusOK
  let g := h.WriteHeader StatusOK
  if isHTTPResponseFromBackend && isNotOkStatusFromBackend && g.bodyAsStatusMessage then
    g.responseWriter.withHeader fun hd => hd.Set GrpcMessageHeaderName (goString buf)
  else g.responseWriter

/-- A sink that accepts every buffer in full: its `Write` answers with the
length of the buffer and no error. -/
def acceptsAll (rw : ResponseWriter) : Prop :=
  ∀ (hd : Header) (calls : List SinkCall) (body : List UInt8),
    rw.writeReply hd calls body = ((body.length : Int), none)

/-- A recorder whose `Write` fails with the given message and count 0. -/
def failingRecorder (msg : String) : ResponseWriter :=
  { recorder with writeReply := fun _ _ _ => (0, some msg) }

/-- The canonical keys of the five header names the conversion writes. -/
def conversionKeys : List String :=
  ["Trailer", "Content-Type", "Content-Length", "Grpc-Status", "Grpc-Message"]

theorem HTTP2grpc_eq (s : Int) :
    grpc.HTTP2grpc s =
      if s = 400 then some 13
      else if s = 401 then some 16
      else if s = 403 then some 7
      else if s = 404 then some 12
      else if s = 429 ∨ s = 502 ∨ s = 503 ∨ s = 504 then some 14
      else none := by
  unfold grpc.HTTP2grpc grpc.HTTP2grpcEntries
  simp only [StatusBadRequest, StatusUnauthorized, StatusForbidden, StatusNotFound,
    StatusTooManyRequests, StatusBadGateway, StatusServiceUnavailable, StatusGatewayTimeout,
    grpc.INTERNAL, grpc.UNAUTHENTICATED, grpc.PERMISSION_DENIED, grpc.UNIMPLEMENTED,
    grpc.UNAVAILABLE, List.find?]
  by_cases h1 : s = 400
  · subst h1; rfl
  by_cases h2 : s = 401
  · subst h2; rfl
  by_cases h3 : s = 403
  · subst h3; rfl
  by_cases h4 : s = 404
  · subst h4; rfl
  by_cases h5 : s = 429
  · subst h5; rfl
  by_cases h6 : s = 502
  · subst h6; rfl
  by_cases h7 : s = 503
  · subst h7; rfl
  by_cases h8 : s = 504
  · subst h8; rfl
  have e1 : ((400 : Int) == s) = false := by simpa using fun h => h1 h.symm
  have e2 : ((401 : Int) == s) = false := by simpa using fun h => h2 h.symm
  have e3 : ((403 : Int) == s) = false := by simpa using fun h => h3 h.symm
  have e4 : ((404 : Int) == s) = false := by simpa using fun h => h4 h.symm
  have e5 : ((429 : Int) == s) = false := by simpa using fun h => h5 h.symm
  have e6 : ((502 : Int) == s) = false := by simpa using fun h => h6 h.symm
  have e7 : ((503 : Int) == s) = false := by simpa using fun h => h7 h.symm
  have e8 : ((504 : Int) == s) = false := by simpa using fun h => h8 h.symm
  simp [e1, e2, e3, e4, e5, e6, e7, e8, h1, h2, h3, h4, h5, h6, h7, h8]

/-- C1: for every integer HTTP status `s`, `getGrpcStatusCode s` is the
decimal rendering of the documented code, which is the string "0" for 200,
"13" for 400, "16" for 401, "7" for 403, "12" for 404, "14" for 429, 502,
503 and 504, and "2" for every other integer. -/
theorem getGrpcStatusCode_table (s : Int) :
    getGrpcStatusCode s = Itoa (documentedCode s) ∧
    getGrpcStatusCode s =
      (if s = 200 then "0"
       else if s = 400 then "13"
       else if s = 401 then "16"
       else if s = 403 then "7"
       else if s = 404 then "12"
       else if s = 429 ∨ s = 502 ∨ s = 503 ∨ s = 504 then "14"
       else "2") := by
  unfold getGrpcStatusCode documentedCode
  rw [HTTP2grpc_eq]
  simp only [StatusOK, grpc.OK, grpc.UNKNOWN]
  constructor
  · split_ifs <;> rfl
  · split_ifs <;> decide

/-! ## Canonical keys of the five header names of the source -/

theorem canonical_GrpcStatus : CanonicalMIMEHeaderKey "grpc-status" = "Grpc-Status" := by
  decide

theorem canonical_GrpcMessage :
    CanonicalMIMEHeaderKey "grpc-message" = "Grpc-Message" := by
  decide

theorem canonical_Trailer : CanonicalMIMEHeaderKey "Trailer" = "Trailer" := by
  decide

theorem canonical_ContentLength :
    CanonicalMIMEHeaderKey "Content-Length" = "Content-Length" := by
  decide

theorem canonical_ContentType :
    CanonicalMIMEHeaderKey "Content-Type" = "Content-Type" := by
  decide

theorem Header.Set_apply (h : Header) (key value k : String) :
    h.Set key value k = if k = CanonicalMIMEHeaderKey key then some [value] else h k := rfl

theorem Header.Add_apply (h : Header) (key value k : String) :
    h.Add key value k =
      if k = CanonicalMIMEHeaderKey key then some ((h k).getD [] ++ [value]) else h k := rfl

theorem Header.Del_apply (h : Header) (key k : String) :
    h.Del key k = if k = CanonicalMIMEHeaderKey key then none else h k := rfl

/-! ## The fresh modifier -/

theorem new_responseWriter (rw : ResponseWriter) (m : Bool) :
    (newHTTP2grpcModifier rw m).responseWriter = rw := by
  unfold newHTTP2grpcModifier; split <;> rfl

theorem new_headerSent (rw : ResponseWriter) (m : Bool) :
    (newHTTP2grpcModifier rw m).headerSent = false := by
  unfold newHTTP2grpcModifier; split <;> rfl

theorem new_backendUseGrpc (rw : ResponseWriter) (m : Bool) :
    (newHTTP2grpcModifier rw m).backendUseGrpc = false := by
  unfold newHTTP2grpcModifier; split <;> rfl

theorem new_sentHTTPStatusCode (rw : ResponseWriter) (m : Bool) :
    (newHTTP2grpcModifier rw m).sentHTTPStatusCode = 200 := by
  unfold newHTTP2grpcModifier; split <;> rfl

theorem new_bodyAsStatusMessage (rw : ResponseWriter) (m : Bool) :
    (newHTTP2grpcModifier rw m).bodyAsStatusMessage = m := by
  unfold newHTTP2grpcModifier; split <;> rfl

theorem new_responseWriterFlusher (rw : ResponseWriter) (m : Bool) :
    (newHTTP2grpcModifier rw m).responseWriterFlusher = rw.isFlusher := by
  unfold newHTTP2grpcModifier; split <;> simp_all

/-! ## The commit step -/

theorem header_rewrite_eq (hd : Header) (m : Bool) (s : Int) :
    (if (!m) = true then
        (((((hd.Set TrailerHeaderName GrpcStatusHeaderName).Add TrailerHeaderName
          GrpcMessageHeaderName).Set ContentTypeHeaderName ContentTypeHeaderGrpcValue).Del
          ContentLengthHeaderName).Set GrpcStatusHeaderName (getGrpcStatusCode s)).Set
          GrpcMessageHeaderName ""
      else
        ((((hd.Set TrailerHeaderName GrpcStatusHeaderName).Add TrailerHeaderName
          GrpcMessageHeaderName).Set ContentTypeHeaderName ContentTypeHeaderGrpcValue).Del
          ContentLengthHeaderName).Set GrpcStatusHeaderName (getGrpcStatusCode s)) =
      convertedHeader hd m s := by
  cases m <;> simp only [Bool.not_true, Bool.not_false, Bool.false_eq_true, if_true, if_false] <;>
    funext k <;>
    simp only [Header.Set_apply, Header.Add_apply, Header.Del_apply, convertedHeader,
      TrailerHeaderName, ContentLengthHeaderName, ContentTypeHeaderName,
      GrpcStatusHeaderName, GrpcMessageHeaderName, ContentTypeHeaderGrpcValue,
      canonical_GrpcStatus, canonical_GrpcMessage,
      canonical_Trailer, canonical_ContentLength, canonical_ContentType] <;>
    by_cases h1 : k = "Grpc-Message" <;> by_cases h2 : k = "Grpc-Status" <;>
    by_cases h3 : k = "Content-Length" <;> by_cases h4 : k = "Content-Type" <;>
    by_cases h5 : k = "Trailer" <;> simp_all

theorem convertHTTPToGrpc_eq (h : http2grpcModifier) (s : Int) :
    h.convertHTTPToGrpc s =
      { h with responseWriter :=
          { h.responseWriter with
            header := convertedHeader h.responseWriter.header h.bodyAsStatusMessage s
            calls := h.responseWriter.calls ++ [SinkCall.writeHeader 200] } } := by
  unfold http2grpcModifier.convertHTTPToGrpc
  rw [← header_rewrite_eq]
  cases h.bodyAsStatusMessage <;>
    simp [ResponseWriter.withHeader, ResponseWriter.WriteHeader, StatusOK]

theorem WriteHeader_sent (h : http2grpcModifier) (s : Int) (hs : h.headerSent = true) :
    h.WriteHeader s = h := by
  simp [http2grpcModifier.WriteHeader, hs]

theorem WriteHeader_convert (h : http2grpcModifier) (s : Int) (hs : h.headerSent = false)
    (hc : h.checkResponseInGrpcFormat = false) :
    h.WriteHeader s =
      { h with
        responseWriter :=
          { h.responseWriter with
            header := convertedHeader h.responseWriter.header h.bodyAsStatusMessage s
            calls := h.responseWriter.calls ++ [SinkCall.writeHeader 200] }
        sentHTTPStatusCode := s
        headerSent := true } := by
  simp [http2grpcModifier.WriteHeader, hs, hc, convertHTTPToGrpc_eq]

theorem WriteHeader_passthrough (h : http2grpcModifier) (s : Int) (hs : h.headerSent = false)
    (hc : h.checkResponseInGrpcFormat = true) :
    h.WriteHeader s =
      { h with
        responseWriter :=
          { h.responseWriter with
            calls := h.responseWriter.calls ++ [SinkCall.writeHeader 200] }
        backendUseGrpc := true
        sentHTTPStatusCode := s
        headerSent := true } := by
  simp [http2grpcModifier.WriteHeader, hs, hc, ResponseWriter.WriteHeader, StatusOK]

theorem check_eq_false (h : http2grpcModifier)
    (h1 : h.responseWriter.header.Get ContentTypeHeaderName ≠ ContentTypeHeaderGrpcValue)
    (h2 : h.responseWriter.header.Get ContentTypeHeaderName ≠
      ContentTypeHeaderGrpcWithBodyValue) :
    h.checkResponseInGrpcFormat = false := by
  simp [http2grpcModifier.checkResponseInGrpcFormat, h1, h2]

theorem check_eq_true (h : http2grpcModifier)
    (h1 : h.responseWriter.header.Get ContentTypeHeaderName = ContentTypeHeaderGrpcValue ∨
      h.responseWriter.header.Get ContentTypeHeaderName = ContentTypeHeaderGrpcWithBodyValue) :
    h.checkResponseInGrpcFormat = true := by
  rcases h1 with h1 | h1 <;> simp [http2grpcModifier.checkResponseInGrpcFormat, h1]

theorem Write_sent (h : http2grpcModifier) (buf : List UInt8) (hs : h.headerSent = true) :
    h.Write buf =
      ({ h with
          responseWriter :=
            { h.responseWriter with
              header := writtenHeader h buf
              calls := h.responseWriter.calls ++ writeCalls h buf } },
        h.responseWriter.writeReply (writtenHeader h buf) h.responseWriter.calls
          (sentBody h buf)) := by
  unfold http2grpcModifier.Write
  simp only [WriteHeader_sent h StatusOK hs]
  unfold writtenHeader sentBody writeCalls
  obtain ⟨rw, fl, sc, bg, bm, sent⟩ := h
  cases bg <;> cases bm <;> cases fl <;> by_cases h200 : sc = StatusOK <;>
    simp [h200, ResponseWriter.Write, ResponseWriter.Flush, ResponseWriter.withHeader, sentBody]

/-! ## WriteHeader followed by Write on a fresh modifier -/

/-- The state after `WriteHeader(s)` and `Write(b)` on a fresh modifier whose
response is converted. -/
theorem convert_then_write (rw : ResponseWriter) (m : Bool) (s : Int) (b : List UInt8)
    (h1 : rw.header.Get ContentTypeHeaderName ≠ ContentTypeHeaderGrpcValue)
    (h2 : rw.header.Get ContentTypeHeaderName ≠ ContentTypeHeaderGrpcWithBodyValue) :
    (((newHTTP2grpcModifier rw m).WriteHeader s).Write b).1 =
      { responseWriter :=
          { rw with
            header :=
              if s ≠ 200 ∧ m = true then
                (convertedHeader rw.header m s).Set GrpcMessageHeaderName (goString b)
              else convertedHeader rw.header m s
            calls := rw.calls ++ SinkCall.writeHeader 200 ::
              SinkCall.write (if s ≠ 200 then EmptyGrpcBody else b) ::
              (if rw.isFlusher = true then [SinkCall.flush] else []) }
        responseWriterFlusher := rw.isFlusher
        sentHTTPStatusCode := s
        backendUseGrpc := false
        bodyAsStatusMessage := m
        headerSent := true } := by
  have hc : (newHTTP2grpcModifier rw m).checkResponseInGrpcFormat = false :=
    check_eq_false _ (by rw [new_responseWriter]; exact h1)
      (by rw [new_responseWriter]; exact h2)
  have e1 := WriteHeader_convert (newHTTP2grpcModifier rw m) s (new_headerSent rw m) hc
  rw [Write_sent _ b (by rw [e1])]
  rw [e1]
  simp only [new_responseWriter, new_bodyAsStatusMessage, new_responseWriterFlusher,
    new_backendUseGrpc, writtenHeader, writeCalls, sentBody, StatusOK]
  cases m <;> cases rw.isFlusher <;> by_cases hs : s = 200 <;> simp [hs]

theorem convertedHeader_ContentLength (hd : Header) (m : Bool) (s : Int) :
    convertedHeader hd m s "Content-Length" = none := by
  simp [convertedHeader]

theorem convertedHeader_ContentType (hd : Header) (m : Bool) (s : Int) :
    convertedHeader hd m s "Content-Type" = some ["application/grpc"] := by
  simp [convertedHeader]

theorem convertedHeader_GrpcStatus (hd : Header) (m : Bool) (s : Int) :
    convertedHeader hd m s "Grpc-Status" = some [getGrpcStatusCode s] := by
  simp [convertedHeader]

theorem convertedHeader_Trailer (hd : Header) (m : Bool) (s : Int) :
    convertedHeader hd m s "Trailer" = some ["grpc-status", "grpc-message"] := by
  simp [convertedHeader]

theorem convertedHeader_GrpcMessage (hd : Header) (m : Bool) (s : Int) :
    convertedHeader hd m s "Grpc-Message" = if m = false then some [""] else hd "Grpc-Message" := by
  cases m <;> simp [convertedHeader]

/-- C2: for every backend status `s ≠ 200`, every body `b`, both values of
`bodyAsStatusMessage` and every initial header map whose Content-Type is
neither gRPC value, after `WriteHeader(s)` and one `Write(b)` on a fresh
modifier over a sink that has received nothing yet, the sink has received the
single status 200, its body is the 5 bytes 00 00 00 00 00, `Content-Length` is
absent, `Content-Type` is exactly `application/grpc` and `grpc-status` is
`getGrpcStatusCode s`. -/
theorem convert_notOk_downstream (rw : ResponseWriter) (m : Bool) (s : Int) (b : List UInt8)
    (hfresh : rw.calls = [])
    (hs : s ≠ 200)
    (h1 : rw.header.Get ContentTypeHeaderName ≠ ContentTypeHeaderGrpcValue)
    (h2 : rw.header.Get ContentTypeHeaderName ≠ ContentTypeHeaderGrpcWithBodyValue) :
    ((((newHTTP2grpcModifier rw m).WriteHeader s).Write b).1.responseWriter.statusCodes
        = [200]) ∧
    ((((newHTTP2grpcModifier rw m).WriteHeader s).Write b).1.responseWriter.body
        = [0, 0, 0, 0, 0]) ∧
    ((((newHTTP2grpcModifier rw m).WriteHeader s).Write b).1.Header
        (CanonicalMIMEHeaderKey ContentLengthHeaderName) = none) ∧
    ((((newHTTP2grpcModifier rw m).WriteHeader s).Write b).1.Header.Values
        ContentTypeHeaderName = ["application/grpc"]) ∧
    ((((newHTTP2grpcModifier rw m).WriteHeader s).Write b).1.Header.Values
        GrpcStatusHeaderName = [getGrpcStatusCode s]) ∧
    ((((newHTTP2grpcModifier rw m).WriteHeader s).Write b).1.Header.Get
        GrpcStatusHeaderName = getGrpcStatusCode s) := by
  rw [convert_then_write rw m s b h1 h2]
  simp only [http2grpcModifier.Header, Header.Values, Header.Get, ContentLengthHeaderName,
    ContentTypeHeaderName, GrpcStatusHeaderName, GrpcMessageHeaderName, canonical_ContentLength,
    canonical_ContentType, canonical_GrpcStatus, canonical_GrpcMessage,
    ResponseWriter.statusCodes, ResponseWriter.body, ResponseWriter.bodies, hfresh]
  refine ⟨?_, ?_, ?_, ?_, ?_, ?_⟩
  · cases rw.isFlusher <;> simp
  · cases rw.isFlusher <;> simp [hs, EmptyGrpcBody]
  · split_ifs <;>
      simp [Header.Set_apply, canonical_GrpcMessage, convertedHeader_ContentLength]
  · split_ifs <;>
      simp [Header.Set_apply, canonical_GrpcMessage, convertedHeader_ContentType]
  · split_ifs <;>
      simp [Header.Set_apply, canonical_GrpcMessage, convertedHeader_GrpcStatus]
  · split_ifs <;>
      simp [Header.Set_apply, canonical_GrpcMessage, convertedHeader_GrpcStatus]

/-- C2 at the recorder, status 401, `bodyAsStatusMessage = true` and the body
"no". -/
theorem convert_notOk_downstream_witness :
    ((((newHTTP2grpcModifier recorder true).WriteHeader 401).Write
        [110, 111]).1.responseWriter.statusCodes = [200]) ∧
    ((((newHTTP2grpcModifier recorder true).WriteHeader 401).Write
        [110, 111]).1.responseWriter.body = [0, 0, 0, 0, 0]) ∧
    ((((newHTTP2grpcModifier recorder true).WriteHeader 401).Write [110, 111]).1.Header
        (CanonicalMIMEHeaderKey ContentLengthHeaderName) = none) ∧
    ((((newHTTP2grpcModifier recorder true).WriteHeader 401).Write [110, 111]).1.Header.Values
        ContentTypeHeaderName = ["application/grpc"]) ∧
    ((((newHTTP2grpcModifier recorder true).WriteHeader 401).Write [110, 111]).1.Header.Values
        GrpcStatusHeaderName = [getGrpcStatusCode 401]) ∧
    ((((newHTTP2grpcModifier recorder true).WriteHeader 401).Write [110, 111]).1.Header.Get
        GrpcStatusHeaderName = getGrpcStatusCode 401) :=
  convert_notOk_downstream recorder true 401 [110, 111] rfl (by decide) (by decide) (by decide)

/-- C3: with `bodyAsStatusMessage = true`, for every backend status `s ≠ 200`
and every body `b` on a converted response, after `WriteHeader(s)` and
`Write(b)` on a fresh modifier the `grpc-message` header is `string(b)`, and
the body sent downstream is the 5-byte empty frame whatever `b` is, hence
different from `b` unless `b` is that frame itself. -/
theorem bodyAsStatusMessage_sets_grpcMessage (rw : ResponseWriter) (s : Int) (b : List UInt8)
    (hfresh : rw.calls = [])
    (hs : s ≠ 200)
    (h1 : rw.header.Get ContentTypeHeaderName ≠ ContentTypeHeaderGrpcValue)
    (h2 : rw.header.Get ContentTypeHeaderName ≠ ContentTypeHeaderGrpcWithBodyValue) :
    ((((newHTTP2grpcModifier rw true).WriteHeader s).Write b).1.Header.Values
        GrpcMessageHeaderName = [goString b]) ∧
    ((((newHTTP2grpcModifier rw true).WriteHeader s).Write b).1.Header.Get
        GrpcMessageHeaderName = goString b) ∧
    ((((newHTTP2grpcModifier rw true).WriteHeader s).Write b).1.responseWriter.bodies
        = [EmptyGrpcBody]) ∧
    ((((newHTTP2grpcModifier rw true).WriteHeader s).Write b).1.responseWriter.body
        = [0, 0, 0, 0, 0]) ∧
    (b ≠ [0, 0, 0, 0, 0] →
      (((newHTTP2grpcModifier rw true).WriteHeader s).Write b).1.responseWriter.body ≠ b) := by
  rw [convert_then_write rw true s b h1 h2]
  simp only [http2grpcModifier.Header, Header.Values, Header.Get, GrpcMessageHeaderName,
    canonical_GrpcMessage, ResponseWriter.body, ResponseWriter.bodies, hfresh]
  have hb : List.filterMap (fun c => match c with
        | SinkCall.write b => some b
        | _ => none)
      ([] ++ SinkCall.writeHeader 200 :: SinkCall.write (if s ≠ 200 then EmptyGrpcBody else b) ::
        if rw.isFlusher = true then [SinkCall.flush] else []) = [EmptyGrpcBody] := by
    cases rw.isFlusher <;> simp [hs]
  rw [hb]
  refine ⟨?_, ?_, rfl, ?_, ?_⟩
  · simp [hs, Header.Set_apply, canonical_GrpcMessage]
  · simp [hs, Header.Set_apply, canonical_GrpcMessage]
  · simp [EmptyGrpcBody]
  · intro hne heq
    apply hne
    rw [← heq]
    simp [EmptyGrpcBody]

/-- C3 at the recorder, status 401 and the body "no". -/
theorem bodyAsStatusMessage_sets_grpcMessage_witness :
    ((((newHTTP2grpcModifier recorder true).WriteHeader 401).Write [110, 111]).1.Header.Values
        GrpcMessageHeaderName = [goString [110, 111]]) ∧
    ((((newHTTP2grpcModifier recorder true).WriteHeader 401).Write [110, 111]).1.Header.Get
        GrpcMessageHeaderName = goString [110, 111]) ∧
    ((((newHTTP2grpcModifier recorder true).WriteHeader 401).Write
        [110, 111]).1.responseWriter.bodies = [EmptyGrpcBody]) ∧
    ((((newHTTP2grpcModifier recorder true).WriteHeader 401).Write
        [110, 111]).1.responseWriter.body = [0, 0, 0, 0, 0]) ∧
    (([110, 111] : List UInt8) ≠ [0, 0, 0, 0, 0] →
      (((newHTTP2grpcModifier recorder true).WriteHeader 401).Write
        [110, 111]).1.responseWriter.body ≠ [110, 111]) :=
  bodyAsStatusMessage_sets_grpcMessage recorder 401 [110, 111] rfl (by decide) (by decide)
    (by decide)

/-- C5: for backend status 200 on a converted response whose `grpc-message`
the backend has not set, for every body `b` and both values of
`bodyAsStatusMessage`, after `WriteHeader(200)` and `Write(b)` on a fresh
modifier the body sent downstream is `b`, `grpc-status` is "0" and reading
`grpc-message` yields the empty string. -/
theorem ok_status_forwards_body (rw : ResponseWriter) (m : Bool) (b : List UInt8)
    (hfresh : rw.calls = [])
    (h1 : rw.header.Get ContentTypeHeaderName ≠ ContentTypeHeaderGrpcValue)
    (h2 : rw.header.Get ContentTypeHeaderName ≠ ContentTypeHeaderGrpcWithBodyValue)
    (hmsg : rw.header (CanonicalMIMEHeaderKey GrpcMessageHeaderName) = none) :
    ((((newHTTP2grpcModifier rw m).WriteHeader 200).Write b).1.responseWriter.bodies = [b]) ∧
    ((((newHTTP2grpcModifier rw m).WriteHeader 200).Write b).1.responseWriter.body = b) ∧
    ((((newHTTP2grpcModifier rw m).WriteHeader 200).Write b).1.Header.Get
        GrpcStatusHeaderName = "0") ∧
    ((((newHTTP2grpcModifier rw m).WriteHeader 200).Write b).1.Header.Get
        GrpcMessageHeaderName = "") := by
  rw [convert_then_write rw m 200 b h1 h2]
  simp only [GrpcMessageHeaderName, canonical_GrpcMessage] at hmsg
  simp only [http2grpcModifier.Header, Header.Values, Header.Get, GrpcMessageHeaderName,
    GrpcStatusHeaderName, canonical_GrpcStatus, canonical_GrpcMessage, ResponseWriter.body,
    ResponseWriter.bodies, hfresh]
  have hb : List.filterMap (fun c => match c with
        | SinkCall.write b => some b
        | _ => none)
      ([] ++ SinkCall.writeHeader 200 ::
        SinkCall.write (if (200 : Int) ≠ 200 then EmptyGrpcBody else b) ::
        if rw.isFlusher = true then [SinkCall.flush] else []) = [b] := by
    cases rw.isFlusher <;> simp
  rw [hb]
  refine ⟨rfl, by simp, ?_, ?_⟩
  · simp only [ne_eq, not_true_eq_false, false_and, if_false, convertedHeader_GrpcStatus]
    decide
  · simp only [ne_eq, not_true_eq_false, false_and, if_false, convertedHeader_GrpcMessage]
    cases m <;> simp [hmsg]

/-- C5 at the recorder, `bodyAsStatusMessage = true` and the body "ok". -/
theorem ok_status_forwards_body_witness :
    ((((newHTTP2grpcModifier recorder true).WriteHeader 200).Write
        [111, 107]).1.responseWriter.bodies = [[111, 107]]) ∧
    ((((newHTTP2grpcModifier recorder true).WriteHeader 200).Write
        [111, 107]).1.responseWriter.body = [111, 107]) ∧
    ((((newHTTP2grpcModifier recorder true).WriteHeader 200).Write [111, 107]).1.Header.Get
        GrpcStatusHeaderName = "0") ∧
    ((((newHTTP2grpcModifier recorder true).WriteHeader 200).Write [111, 107]).1.Header.Get
        GrpcMessageHeaderName = "") :=
  ok_status_forwards_body recorder true [111, 107] rfl (by decide) (by decide) rfl

/-! ## Commit by any of the three operations -/

theorem WriteHeader_headerSent (h : http2grpcModifier) (s : Int) :
    (h.WriteHeader s).headerSent = true := by
  unfold http2grpcModifier.WriteHeader
  by_cases hs : h.headerSent = true
  · simp [hs]
  · simp [hs]

theorem Write_unsent (h : http2grpcModifier) (buf : List UInt8)
    (hg : h.backendUseGrpc = false) (hc : h.sentHTTPStatusCode = 200) :
    h.Write buf = ((h.WriteHeader 200).Write buf) := by
  by_cases hs : h.headerSent = true
  · rw [WriteHeader_sent h 200 hs]
  · have hs2 : h.headerSent = false := by simpa using hs
    have e : (h.WriteHeader 200).WriteHeader 200 = h.WriteHeader 200 :=
      WriteHeader_sent _ _ (WriteHeader_headerSent h 200)
    have hc2 : (h.WriteHeader 200).sentHTTPStatusCode = 200 := by
      simp [http2grpcModifier.WriteHeader, hs2]
    unfold http2grpcModifier.Write
    simp only [StatusOK, e, hg, hc, hc2, bne_self_eq_false, Bool.and_false, Bool.false_and,
      Bool.false_eq_true, if_false]

theorem Flush_eq (h : http2grpcModifier) :
    h.Flush =
      { h.WriteHeader 200 with
        responseWriter :=
          { (h.WriteHeader 200).responseWriter with
            calls := (h.WriteHeader 200).responseWriter.calls ++
              (if h.responseWriter.isFlusher = true then [SinkCall.flush] else []) } } := by
  have hf : (h.WriteHeader 200).responseWriter.isFlusher = h.responseWriter.isFlusher := by
    unfold http2grpcModifier.WriteHeader
    by_cases hs : h.headerSent = true
    · simp [hs]
    · by_cases hc : h.checkResponseInGrpcFormat = true
      · simp [hs, hc, ResponseWriter.WriteHeader]
      · simp [hs, hc, convertHTTPToGrpc_eq]
  unfold http2grpcModifier.Flush
  simp only [StatusOK]
  rw [← hf]
  generalize h.WriteHeader 200 = g
  by_cases hg : g.responseWriter.isFlusher = true
  · rw [if_pos hg, if_pos hg]
    simp [ResponseWriter.Flush]
  · rw [if_neg hg, if_neg hg]
    simp

/-- The state right after the commit of a converted response on a fresh
modifier, whichever operation commits. -/
theorem commit_convert_fresh (rw : ResponseWriter) (m : Bool) (c : Op)
    (hc : c.commits = true)
    (h1 : rw.header.Get ContentTypeHeaderName ≠ ContentTypeHeaderGrpcValue)
    (h2 : rw.header.Get ContentTypeHeaderName ≠ ContentTypeHeaderGrpcWithBodyValue) :
    (step (newHTTP2grpcModifier rw m) c).responseWriter.header =
        convertedHeader rw.header m c.commitStatus ∧
    (step (newHTTP2grpcModifier rw m) c).headerSent = true ∧
    (step (newHTTP2grpcModifier rw m) c).bodyAsStatusMessage = m ∧
    (step (newHTTP2grpcModifier rw m) c).backendUseGrpc = false ∧
    (step (newHTTP2grpcModifier rw m) c).sentHTTPStatusCode = c.commitStatus := by
  have hcheck : (newHTTP2grpcModifier rw m).checkResponseInGrpcFormat = false :=
    check_eq_false _ (by rw [new_responseWriter]; exact h1)
      (by rw [new_responseWriter]; exact h2)
  have e1 := fun s => WriteHeader_convert (newHTTP2grpcModifier rw m) s (new_headerSent rw m) hcheck
  cases c with
  | Header f => simp [Op.commits] at hc
  | Hijack => simp [Op.commits] at hc
  | WriteHeader s =>
    simp only [step, Op.commitStatus, e1 s, new_responseWriter, new_bodyAsStatusMessage,
      new_backendUseGrpc, and_self]
  | Write b =>
    simp only [step, Op.commitStatus, StatusOK]
    rw [Write_unsent _ b (new_backendUseGrpc rw m) (new_sentHTTPStatusCode rw m),
      convert_then_write rw m 200 b h1 h2]
    simp
  | Flush =>
    simp only [step, Op.commitStatus, StatusOK, Flush_eq, e1 200, new_responseWriter,
      new_bodyAsStatusMessage, new_backendUseGrpc, and_self]

/-! ## Operations on a committed modifier -/

theorem Hijack_fields (h : http2grpcModifier) :
    h.Hijack.1.headerSent = h.headerSent ∧
    h.Hijack.1.backendUseGrpc = h.backendUseGrpc ∧
    h.Hijack.1.sentHTTPStatusCode = h.sentHTTPStatusCode ∧
    h.Hijack.1.bodyAsStatusMessage = h.bodyAsStatusMessage ∧
    h.Hijack.1.responseWriterFlusher = h.responseWriterFlusher ∧
    h.Hijack.1.responseWriter.header = h.responseWriter.header := by
  unfold http2grpcModifier.Hijack
  by_cases hj : h.responseWriter.isHijacker = true
  · simp [hj, ResponseWriter.Hijack]
  · simp [hj]

/-- On a committed modifier no operation changes a field of the modifier. -/
theorem step_sent_fields (h : http2grpcModifier) (o : Op) (hs : h.headerSent = true) :
    (step h o).headerSent = true ∧
    (step h o).backendUseGrpc = h.backendUseGrpc ∧
    (step h o).sentHTTPStatusCode = h.sentHTTPStatusCode ∧
    (step h o).bodyAsStatusMessage = h.bodyAsStatusMessage ∧
    (step h o).responseWriterFlusher = h.responseWriterFlusher := by
  cases o with
  | Header f => simp [step, hs]
  | WriteHeader s => simp [step, WriteHeader_sent h s hs, hs]
  | Write b => simp [step, Write_sent h b hs, hs]
  | Flush => simp [step, Flush_eq, WriteHeader_sent h 200 hs, hs]
  | Hijack =>
    obtain ⟨a, b, c, d, e, _⟩ := Hijack_fields h
    simp [step, a, b, c, d, e, hs]

/-- On a committed modifier only `Write` (and the backend itself, through
`Header()`) changes the header map. -/
theorem step_sent_header (h : http2grpcModifier) (o : Op) (hs : h.headerSent = true) :
    (step h o).responseWriter.header =
      match o with
      | Op.Header f => f h.responseWriter.header
      | Op.Write b => writtenHeader h b
      | _ => h.responseWriter.header := by
  cases o with
  | Header f => simp [step, ResponseWriter.withHeader]
  | WriteHeader s => simp [step, WriteHeader_sent h s hs]
  | Write b => simp [step, Write_sent h b hs]
  | Flush => simp [step, Flush_eq, WriteHeader_sent h 200 hs]
  | Hijack => simp [step, (Hijack_fields h).2.2.2.2.2]

theorem run_nil (h : http2grpcModifier) : run h [] = h := rfl

theorem run_cons (h : http2grpcModifier) (o : Op) (ops : List Op) :
    run h (o :: ops) = run (step h o) ops := rfl

theorem run_append (h : http2grpcModifier) (ops1 ops2 : List Op) :
    run h (ops1 ++ ops2) = run (run h ops1) ops2 := by
  simp [run, List.foldl_append]

/-- On a committed modifier no sequence of operations changes a field of the
modifier. -/
theorem run_sent_fields (ops : List Op) (h : http2grpcModifier) (hs : h.headerSent = true) :
    (run h ops).headerSent = true ∧
    (run h ops).backendUseGrpc = h.backendUseGrpc ∧
    (run h ops).sentHTTPStatusCode = h.sentHTTPStatusCode ∧
    (run h ops).bodyAsStatusMessage = h.bodyAsStatusMessage ∧
    (run h ops).responseWriterFlusher = h.responseWriterFlusher := by
  induction ops generalizing h with
  | nil => simp [run_nil, hs]
  | cons o ops ih =>
    obtain ⟨a, b, c, d, e⟩ := step_sent_fields h o hs
    obtain ⟨a2, b2, c2, d2, e2⟩ := ih (step h o) a
    rw [run_cons]
    exact ⟨a2, b2.trans b, c2.trans c, d2.trans d, e2.trans e⟩

/-- With `bodyAsStatusMessage = false` the operations other than the backend
changing the header map leave the map of a committed modifier as it is. -/
theorem run_sent_header_disabled (ops : List Op) (h : http2grpcModifier)
    (hs : h.headerSent = true) (hm : h.bodyAsStatusMessage = false)
    (hops : ∀ o ∈ ops, o.mutatesHeader = false) :
    (run h ops).responseWriter.header = h.responseWriter.header := by
  induction ops generalizing h with
  | nil => rfl
  | cons o ops ih =>
    obtain ⟨a, _, _, d, _⟩ := step_sent_fields h o hs
    have ho : o.mutatesHeader = false := hops o (List.mem_cons_self _ _)
    have hstep : (step h o).responseWriter.header = h.responseWriter.header := by
      rw [step_sent_header h o hs]
      cases o with
      | Header f => simp [Op.mutatesHeader] at ho
      | Write b => simp [writtenHeader, hm]
      | WriteHeader s => rfl
      | Flush => rfl
      | Hijack => rfl
    rw [run_cons, ih (step h o) a (d.trans hm) (fun o2 h2 => hops o2 (List.mem_cons_of_mem _ h2)),
      hstep]

/-! ## The status message of a converted response -/

/-- C4: with `bodyAsStatusMessage = false`, on every converted response
(committed on a fresh modifier by `WriteHeader` with any status, by `Write` or
by `Flush`, whatever the initial header map holds under `grpc-message`) the
`grpc-message` header is the single empty string right after the commit
(`bodies = []`) and after any number of later `Write` calls with any
bodies. -/
theorem grpcMessage_empty_when_disabled (rw : ResponseWriter) (c : Op)
    (bodies : List (List UInt8))
    (hc : c.commits = true)
    (h1 : rw.header.Get ContentTypeHeaderName ≠ ContentTypeHeaderGrpcValue)
    (h2 : rw.header.Get ContentTypeHeaderName ≠ ContentTypeHeaderGrpcWithBodyValue) :
    (run (step (newHTTP2grpcModifier rw false) c) (bodies.map Op.Write)).Header.Values
        GrpcMessageHeaderName = [""] ∧
    (run (step (newHTTP2grpcModifier rw false) c) (bodies.map Op.Write)).Header.Get
        GrpcMessageHeaderName = "" := by
  obtain ⟨e, hs, hm, _, _⟩ := commit_convert_fresh rw false c hc h1 h2
  have hops : ∀ o ∈ bodies.map Op.Write, o.mutatesHeader = false := by
    intro o ho
    obtain ⟨b, _, rfl⟩ := List.mem_map.mp ho
    rfl
  have hh := run_sent_header_disabled (bodies.map Op.Write) _ hs hm hops
  simp only [http2grpcModifier.Header, Header.Values, Header.Get, GrpcMessageHeaderName,
    canonical_GrpcMessage, hh, e, convertedHeader_GrpcMessage]
  simp

/-- C4 at a recorder whose `grpc-message` the backend had set to "stale":
commit by `WriteHeader(403)`, then two writes. -/
theorem grpcMessage_empty_when_disabled_witness :
    (run (step (newHTTP2grpcModifier
        (recorderWith (emptyHeader.Set GrpcMessageHeaderName "stale")) false)
        (Op.WriteHeader 403)) ([[102], [111, 111]].map Op.Write)).Header.Values
        GrpcMessageHeaderName = [""] ∧
    (run (step (newHTTP2grpcModifier
        (recorderWith (emptyHeader.Set GrpcMessageHeaderName "stale")) false)
        (Op.WriteHeader 403)) ([[102], [111, 111]].map Op.Write)).Header.Get
        GrpcMessageHeaderName = "" :=
  grpcMessage_empty_when_disabled
    (recorderWith (emptyHeader.Set GrpcMessageHeaderName "stale")) (Op.WriteHeader 403)
    [[102], [111, 111]] rfl (by decide) (by decide)

/-! ## Passthrough -/

/-- The state after `WriteHeader(s)` and `Write(b)` on a fresh modifier whose
response is passed through. -/
theorem passthrough_then_write (rw : ResponseWriter) (m : Bool) (s : Int) (b : List UInt8)
    (hct : rw.header.Get ContentTypeHeaderName = ContentTypeHeaderGrpcValue ∨
      rw.header.Get ContentTypeHeaderName = ContentTypeHeaderGrpcWithBodyValue) :
    (newHTTP2grpcModifier rw m).WriteHeader s =
      { responseWriter := { rw with calls := rw.calls ++ [SinkCall.writeHeader 200] }
        responseWriterFlusher := rw.isFlusher
        sentHTTPStatusCode := s
        backendUseGrpc := true
        bodyAsStatusMessage := m
        headerSent := true } ∧
    (((newHTTP2grpcModifier rw m).WriteHeader s).Write b).1 =
      { responseWriter :=
          { rw with
            calls := rw.calls ++ SinkCall.writeHeader 200 :: SinkCall.write b ::
              (if rw.isFlusher = true then [SinkCall.flush] else []) }
        responseWriterFlusher := rw.isFlusher
        sentHTTPStatusCode := s
        backendUseGrpc := true
        bodyAsStatusMessage := m
        headerSent := true } := by
  have hc : (newHTTP2grpcModifier rw m).checkResponseInGrpcFormat = true :=
    check_eq_true _ (by rw [new_responseWriter]; exact hct)
  have e1 := WriteHeader_passthrough (newHTTP2grpcModifier rw m) s (new_headerSent rw m) hc
  constructor
  · rw [e1]
    simp only [new_responseWriter, new_bodyAsStatusMessage, new_responseWriterFlusher]
  · rw [Write_sent _ b (by rw [e1])]
    rw [e1]
    simp only [new_responseWriter, new_bodyAsStatusMessage, new_responseWriterFlusher,
      writtenHeader, writeCalls, sentBody, StatusOK]
    cases rw.isFlusher <;> simp

/-- C6: if the Content-Type is exactly `application/grpc` or
`application/grpc+proto` at commit, then for every status `s`, every body `b`
and both values of `bodyAsStatusMessage`, on a fresh modifier over a sink that
has received nothing yet: the sink receives the single status 200, the header
map after `WriteHeader(s)` and after `Write(b)` is the map the backend had
set, and the body sent downstream is `b`. -/
theorem grpc_response_passes_through (rw : ResponseWriter) (m : Bool) (s : Int)
    (b : List UInt8)
    (hfresh : rw.calls = [])
    (hct : rw.header.Get ContentTypeHeaderName = ContentTypeHeaderGrpcValue ∨
      rw.header.Get ContentTypeHeaderName = ContentTypeHeaderGrpcWithBodyValue) :
    ((newHTTP2grpcModifier rw m).WriteHeader s).responseWriter.statusCodes = [200] ∧
    ((newHTTP2grpcModifier rw m).WriteHeader s).Header = rw.header ∧
    (((newHTTP2grpcModifier rw m).WriteHeader s).Write b).1.responseWriter.statusCodes
        = [200] ∧
    (((newHTTP2grpcModifier rw m).WriteHeader s).Write b).1.Header = rw.header ∧
    (((newHTTP2grpcModifier rw m).WriteHeader s).Write b).1.responseWriter.bodies = [b] ∧
    (((newHTTP2grpcModifier rw m).WriteHeader s).Write b).1.responseWriter.body = b := by
  obtain ⟨e1, e2⟩ := passthrough_then_write rw m s b hct
  rw [e2, e1]
  simp only [http2grpcModifier.Header, ResponseWriter.statusCodes, ResponseWriter.body,
    ResponseWriter.bodies, hfresh]
  cases rw.isFlusher <;> simp

/-- C6 at a recorder whose Content-Type is `application/grpc+proto`, backend
status 500, `bodyAsStatusMessage = true`. -/
theorem grpc_response_passes_through_witness :
    ((newHTTP2grpcModifier (recorderWith (emptyHeader.Set ContentTypeHeaderName
        ContentTypeHeaderGrpcWithBodyValue)) true).WriteHeader 500).responseWriter.statusCodes
        = [200] ∧
    ((newHTTP2grpcModifier (recorderWith (emptyHeader.Set ContentTypeHeaderName
        ContentTypeHeaderGrpcWithBodyValue)) true).WriteHeader 500).Header
        = (recorderWith (emptyHeader.Set ContentTypeHeaderName
        ContentTypeHeaderGrpcWithBodyValue)).header ∧
    (((newHTTP2grpcModifier (recorderWith (emptyHeader.Set ContentTypeHeaderName
        ContentTypeHeaderGrpcWithBodyValue)) true).WriteHeader 500).Write
        [1, 2, 3]).1.responseWriter.statusCodes = [200] ∧
    (((newHTTP2grpcModifier (recorderWith (emptyHeader.Set ContentTypeHeaderName
        ContentTypeHeaderGrpcWithBodyValue)) true).WriteHeader 500).Write [1, 2, 3]).1.Header
        = (recorderWith (emptyHeader.Set ContentTypeHeaderName
        ContentTypeHeaderGrpcWithBodyValue)).header ∧
    (((newHTTP2grpcModifier (recorderWith (emptyHeader.Set ContentTypeHeaderName
        ContentTypeHeaderGrpcWithBodyValue)) true).WriteHeader 500).Write
        [1, 2, 3]).1.responseWriter.bodies = [[1, 2, 3]] ∧
    (((newHTTP2grpcModifier (recorderWith (emptyHeader.Set ContentTypeHeaderName
        ContentTypeHeaderGrpcWithBodyValue)) true).WriteHeader 500).Write
        [1, 2, 3]).1.responseWriter.body = [1, 2, 3] :=
  grpc_response_passes_through
    (recorderWith (emptyHeader.Set ContentTypeHeaderName ContentTypeHeaderGrpcWithBodyValue))
    true 500 [1, 2, 3] rfl (Or.inr (by decide))

/-! ## The Trailer declaration -/

/-- C7: on every converted response, right after the commit (by `WriteHeader`
with any status, by `Write` or by `Flush` on a fresh modifier) the `Trailer`
header holds exactly the two values "grpc-status", "grpc-message" in this
order, for every initial header map. -/
theorem trailer_declares_status_then_message (rw : ResponseWriter) (m : Bool) (c : Op)
    (hc : c.commits = true)
    (h1 : rw.header.Get ContentTypeHeaderName ≠ ContentTypeHeaderGrpcValue)
    (h2 : rw.header.Get ContentTypeHeaderName ≠ ContentTypeHeaderGrpcWithBodyValue) :
    (step (newHTTP2grpcModifier rw m) c).Header.Values TrailerHeaderName =
      ["grpc-status", "grpc-message"] := by
  obtain ⟨e, _⟩ := commit_convert_fresh rw m c hc h1 h2
  simp only [http2grpcModifier.Header, Header.Values, TrailerHeaderName, canonical_Trailer, e,
    convertedHeader_Trailer, Option.getD_some]

/-- C7 at a recorder whose `Trailer` the backend had set to two other values,
commit by `Flush`. -/
theorem trailer_declares_status_then_message_witness :
    (step (newHTTP2grpcModifier
        (recorderWith ((emptyHeader.Set TrailerHeaderName "X-Checksum").Add TrailerHeaderName
          "Expires")) true) Op.Flush).Header.Values TrailerHeaderName =
      ["grpc-status", "grpc-message"] :=
  trailer_declares_status_then_message
    (recorderWith ((emptyHeader.Set TrailerHeaderName "X-Checksum").Add TrailerHeaderName
      "Expires")) true Op.Flush rfl (by decide) (by decide)

/-! ## The commit is made once -/

theorem Write_fields (h : http2grpcModifier) (b : List UInt8) :
    (h.Write b).1.headerSent = (h.WriteHeader 200).headerSent ∧
    (h.Write b).1.backendUseGrpc = (h.WriteHeader 200).backendUseGrpc ∧
    (h.Write b).1.sentHTTPStatusCode = (h.WriteHeader 200).sentHTTPStatusCode ∧
    (h.Write b).1.bodyAsStatusMessage = (h.WriteHeader 200).bodyAsStatusMessage ∧
    (h.Write b).1.responseWriterFlusher = (h.WriteHeader 200).responseWriterFlusher := by
  unfold http2grpcModifier.Write
  simp only [StatusOK]
  generalize h.WriteHeader 200 = g
  obtain ⟨rw, fl, sc, bg, bm, sent⟩ := g
  by_cases hx : (!h.backendUseGrpc && h.sentHTTPStatusCode != 200) = true
  · cases bm <;> cases fl <;> simp [hx, ResponseWriter.Write]
  · cases bm <;> cases fl <;> simp [hx, ResponseWriter.Write]

theorem WriteHeader_unsent_fields (h : http2grpcModifier) (s : Int)
    (hs : h.headerSent = false) :
    (h.WriteHeader s).sentHTTPStatusCode = s ∧
    (h.WriteHeader s).bodyAsStatusMessage = h.bodyAsStatusMessage ∧
    (h.WriteHeader s).responseWriterFlusher = h.responseWriterFlusher := by
  by_cases hc : h.checkResponseInGrpcFormat = true
  · rw [WriteHeader_passthrough h s hs hc]
    simp
  · rw [WriteHeader_convert h s hs (by simpa using hc)]
    simp

/-- Each of `WriteHeader`, `Write` and `Flush` leaves the modifier
committed. -/
theorem step_commits_headerSent (h : http2grpcModifier) (o : Op) (hc : o.commits = true) :
    (step h o).headerSent = true := by
  cases o with
  | Header f => simp [Op.commits] at hc
  | Hijack => simp [Op.commits] at hc
  | WriteHeader s => exact WriteHeader_headerSent h s
  | Write b => simp only [step]; rw [(Write_fields h b).1]; exact WriteHeader_headerSent h 200
  | Flush => simp only [step, Flush_eq]; exact WriteHeader_headerSent h 200

/-- The commit on an uncommitted modifier stores the status it is given. -/
theorem step_commits_status (h : http2grpcModifier) (o : Op) (hc : o.commits = true)
    (hs : h.headerSent = false) :
    (step h o).sentHTTPStatusCode = o.commitStatus := by
  cases o with
  | Header f => simp [Op.commits] at hc
  | Hijack => simp [Op.commits] at hc
  | WriteHeader s => exact (WriteHeader_unsent_fields h s hs).1
  | Write b =>
    simp only [step, Op.commitStatus, StatusOK]
    rw [(Write_fields h b).2.2.1]
    exact (WriteHeader_unsent_fields h 200 hs).1
  | Flush =>
    simp only [step, Op.commitStatus, StatusOK, Flush_eq]
    exact (WriteHeader_unsent_fields h 200 hs).1

/-- `Header` and `Hijack` change no field of the modifier. -/
theorem step_noncommit_fields (h : http2grpcModifier) (o : Op) (hc : o.commits = false) :
    (step h o).headerSent = h.headerSent ∧
    (step h o).backendUseGrpc = h.backendUseGrpc ∧
    (step h o).sentHTTPStatusCode = h.sentHTTPStatusCode := by
  cases o with
  | Header f => simp [step]
  | Hijack =>
    obtain ⟨a, b, c, _⟩ := Hijack_fields h
    exact ⟨a, b, c⟩
  | WriteHeader s => simp [Op.commits] at hc
  | Write b => simp [Op.commits] at hc
  | Flush => simp [Op.commits] at hc

theorem run_unsent_status (ops : List Op) (h : http2grpcModifier)
    (hs : h.headerSent = false) (h200 : h.sentHTTPStatusCode = 200) :
    (run h ops).sentHTTPStatusCode = firstCommitStatus ops := by
  induction ops generalizing h with
  | nil => simpa [run_nil, firstCommitStatus, StatusOK] using h200
  | cons o ops ih =>
    rw [run_cons]
    by_cases hc : o.commits = true
    · rw [(run_sent_fields ops (step h o) (step_commits_headerSent h o hc)).2.2.1,
        step_commits_status h o hc hs]
      simp [firstCommitStatus, List.find?, hc]
    · have hc2 : o.commits = false := by simpa using hc
      obtain ⟨a, _, c⟩ := step_noncommit_fields h o hc2
      rw [ih (step h o) (a.trans hs) (c.trans h200)]
      simp [firstCommitStatus, List.find?, hc2]

/-- C8: `WriteHeader` is idempotent: for every modifier state, fresh ones
with any header map and configuration included, and every pair of status
codes, the complete state (modifier fields, header map and all calls received
by the sink) after `WriteHeader(s1); WriteHeader(s2)` is the state after
`WriteHeader(s1)` alone. -/
theorem writeHeader_idempotent (rw : ResponseWriter) (m : Bool) (h : http2grpcModifier)
    (s1 s2 : Int) :
    ((newHTTP2grpcModifier rw m).WriteHeader s1).WriteHeader s2 =
        (newHTTP2grpcModifier rw m).WriteHeader s1 ∧
    (h.WriteHeader s1).WriteHeader s2 = h.WriteHeader s1 :=
  ⟨WriteHeader_sent _ s2 (WriteHeader_headerSent _ s1),
    WriteHeader_sent _ s2 (WriteHeader_headerSent _ s1)⟩

/-! ## The stored backend status -/

/-- C9 as stated fails: after `WriteHeader(404); WriteHeader(500)` on a fresh
modifier the stored status is 404, while the status passed to the most recent
`WriteHeader` call is 500. -/
theorem sentHTTPStatusCode_not_last_reported :
    (run (newHTTP2grpcModifier recorder false)
        [Op.WriteHeader 404, Op.WriteHeader 500]).sentHTTPStatusCode = 404 ∧
    lastReportedStatus [Op.WriteHeader 404, Op.WriteHeader 500] = some 500 ∧
    ¬ (run (newHTTP2grpcModifier recorder false)
        [Op.WriteHeader 404, Op.WriteHeader 500]).sentHTTPStatusCode =
      (lastReportedStatus [Op.WriteHeader 404, Op.WriteHeader 500]).getD 200 := by
  have e : (run (newHTTP2grpcModifier recorder false)
      [Op.WriteHeader 404, Op.WriteHeader 500]).sentHTTPStatusCode = 404 := by
    rw [run_unsent_status _ _ (new_headerSent _ _) (new_sentHTTPStatusCode _ _)]
    rfl
  refine ⟨e, rfl, ?_⟩
  rw [e]
  decide

/-- C9 amended: after every sequence of operations on a fresh modifier the
stored status is the status of the commit: the argument of the first
`WriteHeader` call when no `Write` or `Flush` precedes it, and 200 otherwise
(when a `Write` or `Flush` comes first, and when the backend never commits);
later `WriteHeader` calls do not change it. -/
theorem sentHTTPStatusCode_is_commit_status (rw : ResponseWriter) (m : Bool) (ops : List Op) :
    (run (newHTTP2grpcModifier rw m) ops).sentHTTPStatusCode = firstCommitStatus ops :=
  run_unsent_status ops _ (new_headerSent rw m) (new_sentHTTPStatusCode rw m)

/-! ## The format decision -/

/-- C10: `headerSent` is false in the fresh modifier, `Header` and `Hijack`
leave it as it is, each of `WriteHeader`, `Write` and `Flush` makes it true,
and from a state in which it is true no sequence of operations makes it false
or changes `backendUseGrpc`. -/
theorem format_decision_made_once (rw : ResponseWriter) (m : Bool) (h : http2grpcModifier)
    (o : Op) (ops : List Op) :
    (newHTTP2grpcModifier rw m).headerSent = false ∧
    (o.commits = false → (step h o).headerSent = h.headerSent) ∧
    (o.commits = true → (step h o).headerSent = true) ∧
    (h.headerSent = true →
      (run h ops).headerSent = true ∧ (run h ops).backendUseGrpc = h.backendUseGrpc) :=
  ⟨new_headerSent rw m, fun hc => (step_noncommit_fields h o hc).1,
    fun hc => step_commits_headerSent h o hc,
    fun hs => ⟨(run_sent_fields ops h hs).1, (run_sent_fields ops h hs).2.1⟩⟩

/-- C10 at the recorder: `Hijack` leaves `headerSent` false on the fresh
modifier, `Flush` makes it true, and after a first `Write` a later change of
the Content-Type to a gRPC value, a `WriteHeader`, a `Write`, a `Flush` and a
`Hijack` keep `headerSent` true and `backendUseGrpc` as it was. -/
theorem format_decision_made_once_witness :
    (step (newHTTP2grpcModifier recorder false) Op.Hijack).headerSent =
        (newHTTP2grpcModifier recorder false).headerSent ∧
    (step (newHTTP2grpcModifier recorder false) Op.Flush).headerSent = true ∧
    ((run (step (newHTTP2grpcModifier recorder false) (Op.Write [1]))
        [Op.Header (fun hd => hd.Set ContentTypeHeaderName ContentTypeHeaderGrpcValue),
          Op.WriteHeader 500, Op.Write [2], Op.Flush, Op.Hijack]).headerSent = true ∧
      (run (step (newHTTP2grpcModifier recorder false) (Op.Write [1]))
        [Op.Header (fun hd => hd.Set ContentTypeHeaderName ContentTypeHeaderGrpcValue),
          Op.WriteHeader 500, Op.Write [2], Op.Flush, Op.Hijack]).backendUseGrpc =
        (step (newHTTP2grpcModifier recorder false) (Op.Write [1])).backendUseGrpc) :=
  ⟨(format_decision_made_once recorder false (newHTTP2grpcModifier recorder false) Op.Hijack
      []).2.1 rfl,
    (format_decision_made_once recorder false (newHTTP2grpcModifier recorder false) Op.Flush
      []).2.2.1 rfl,
    (format_decision_made_once recorder false
      (step (newHTTP2grpcModifier recorder false) (Op.Write [1])) Op.Flush
      [Op.Header (fun hd => hd.Set ContentTypeHeaderName ContentTypeHeaderGrpcValue),
        Op.WriteHeader 500, Op.Write [2], Op.Flush, Op.Hijack]).2.2.2 (by decide)⟩

/-! ## The representation of Go strings -/

theorem char_ofNat_toNat_byte (n : Nat) (h : n < 256) : (Char.ofNat n).toNat = n := by
  have hv : n.isValidChar := Or.inl (by omega)
  simp only [Char.ofNat, hv, Char.toNat, Char.ofNatAux, dif_pos]
  rfl

theorem goString_byte_injective (a b : UInt8)
    (h : Char.ofNat a.toNat = Char.ofNat b.toNat) : a = b := by
  have ha : a.toNat < 256 := a.val.isLt
  have hb : b.toNat < 256 := b.val.isLt
  have h2 := congrArg Char.toNat h
  rw [char_ofNat_toNat_byte _ ha, char_ofNat_toNat_byte _ hb] at h2
  cases a with
  | mk x =>
    cases b with
    | mk y =>
      have hxy : x = y := BitVec.eq_of_toNat_eq h2
      rw [hxy]

/-- Two buffers with the same `string(buf)` are the same buffer: the
representation of Go strings loses nothing. -/
theorem goString_injective : Function.Injective goString := by
  intro a b h
  have h2 : a.map (fun x => Char.ofNat x.toNat) = b.map (fun x => Char.ofNat x.toNat) :=
    congrArg String.data h
  exact List.map_injective_iff.mpr (fun x y hxy => goString_byte_injective x y hxy) h2

/-! ## Write on any modifier state -/

/-- `Write` on any state: one `Write` on the sink as it is after the commit
step, then one `Flush` when the flusher field is set; the count and the error
are the answer of the sink. -/
theorem Write_eq (h : http2grpcModifier) (buf : List UInt8) :
    h.Write buf =
      ({ h.WriteHeader 200 with
          responseWriter :=
            { sinkAtWrite h buf with
              calls := (sinkAtWrite h buf).calls ++ SinkCall.write (sentBody h buf) ::
                (if (h.WriteHeader 200).responseWriterFlusher = true then [SinkCall.flush]
                 else []) } },
        (sinkAtWrite h buf).writeReply (sinkAtWrite h buf).header (sinkAtWrite h buf).calls
          (sentBody h buf)) := by
  unfold http2grpcModifier.Write sinkAtWrite sentBody
  simp only [StatusOK]
  generalize h.WriteHeader 200 = g
  obtain ⟨rw, fl, sc, bg, bm, sent⟩ := g
  by_cases hx : (!h.backendUseGrpc && h.sentHTTPStatusCode != 200) = true
  · cases bm <;> cases fl <;>
      simp [hx, ResponseWriter.Write, ResponseWriter.Flush, ResponseWriter.withHeader]
  · cases bm <;> cases fl <;>
      simp [hx, ResponseWriter.Write, ResponseWriter.Flush, ResponseWriter.withHeader]

/-- The commit step changes nothing of the sink but its header map and its
calls, and neither `bodyAsStatusMessage` nor the flusher field. -/
theorem WriteHeader_static (h : http2grpcModifier) (s : Int) :
    (h.WriteHeader s).bodyAsStatusMessage = h.bodyAsStatusMessage ∧
    (h.WriteHeader s).responseWriterFlusher = h.responseWriterFlusher ∧
    (h.WriteHeader s).responseWriter.isFlusher = h.responseWriter.isFlusher ∧
    (h.WriteHeader s).responseWriter.writeReply = h.responseWriter.writeReply := by
  by_cases hs : h.headerSent = true
  · rw [WriteHeader_sent h s hs]
    simp
  · have hs2 : h.headerSent = false := by simpa using hs
    by_cases hc : h.checkResponseInGrpcFormat = true
    · rw [WriteHeader_passthrough h s hs2 hc]
      simp
    · rw [WriteHeader_convert h s hs2 (by simpa using hc)]
      simp

/-- The calls the commit step makes on the sink: `WriteHeader(200)` when the
response is not committed yet, nothing otherwise. -/
theorem WriteHeader_calls (h : http2grpcModifier) (s : Int) :
    (h.WriteHeader s).responseWriter.calls =
      h.responseWriter.calls ++
        (if h.headerSent = true then [] else [SinkCall.writeHeader 200]) := by
  by_cases hs : h.headerSent = true
  · rw [WriteHeader_sent h s hs]
    simp [hs]
  · have hs2 : h.headerSent = false := by simpa using hs
    by_cases hc : h.checkResponseInGrpcFormat = true
    · rw [WriteHeader_passthrough h s hs2 hc]
      simp [hs2]
    · rw [WriteHeader_convert h s hs2 (by simpa using hc)]
      simp [hs2]

theorem sinkAtWrite_calls (h : http2grpcModifier) (buf : List UInt8) :
    (sinkAtWrite h buf).calls = (h.WriteHeader 200).responseWriter.calls := by
  unfold sinkAtWrite
  simp only [StatusOK]
  split <;> simp [ResponseWriter.withHeader]

theorem sinkAtWrite_static (h : http2grpcModifier) (buf : List UInt8) :
    (sinkAtWrite h buf).isFlusher = h.responseWriter.isFlusher ∧
    (sinkAtWrite h buf).writeReply = h.responseWriter.writeReply := by
  obtain ⟨_, _, a, b⟩ := WriteHeader_static h 200
  unfold sinkAtWrite
  simp only [StatusOK]
  split <;> simp [ResponseWriter.withHeader, a, b]

/-- The calls an operation makes on the sink. -/
theorem step_calls (h : http2grpcModifier) (o : Op) :
    (step h o).responseWriter.calls =
      h.responseWriter.calls ++
        (if o.commits = true ∧ h.headerSent = false then [SinkCall.writeHeader 200] else []) ++
        (match o with
          | Op.Write b =>
            SinkCall.write (sentBody h b) ::
              (if h.responseWriterFlusher = true then [SinkCall.flush] else [])
          | Op.Flush => if h.responseWriter.isFlusher = true then [SinkCall.flush] else []
          | Op.Hijack => if h.responseWriter.isHijacker = true then [SinkCall.hijack] else []
          | _ => []) := by
  cases o with
  | Header f => simp [step, ResponseWriter.withHeader, Op.commits]
  | WriteHeader s =>
    simp only [step, WriteHeader_calls, Op.commits, true_and, List.append_nil]
    cases h.headerSent <;> simp
  | Write b =>
    simp only [step, Write_eq, sinkAtWrite_calls, WriteHeader_calls, Op.commits, true_and,
      (WriteHeader_static h 200).2.1]
    cases h.headerSent <;> simp
  | Flush =>
    simp only [step, Flush_eq, WriteHeader_calls, Op.commits, true_and]
    cases h.headerSent <;> simp
  | Hijack =>
    simp only [step, http2grpcModifier.Hijack, Op.commits]
    by_cases hj : h.responseWriter.isHijacker = true
    · simp [hj, ResponseWriter.Hijack]
    · simp [hj]

/-- No operation changes `bodyAsStatusMessage`, the flusher field, or what
the sink is able to do and how it answers. -/
theorem step_static (h : http2grpcModifier) (o : Op) :
    (step h o).bodyAsStatusMessage = h.bodyAsStatusMessage ∧
    (step h o).responseWriterFlusher = h.responseWriterFlusher ∧
    (step h o).responseWriter.isFlusher = h.responseWriter.isFlusher ∧
    (step h o).responseWriter.writeReply = h.responseWriter.writeReply := by
  obtain ⟨a, b, c, d⟩ := WriteHeader_static h 200
  cases o with
  | Header f => simp [step, ResponseWriter.withHeader]
  | WriteHeader s => exact WriteHeader_static h s
  | Write buf =>
    obtain ⟨e, f⟩ := sinkAtWrite_static h buf
    simp [step, Write_eq, a, b, e, f]
  | Flush => simp [step, Flush_eq, a, b, c, d]
  | Hijack =>
    simp only [step, http2grpcModifier.Hijack]
    by_cases hj : h.responseWriter.isHijacker = true
    · simp [hj, ResponseWriter.Hijack]
    · simp [hj]

theorem run_static (ops : List Op) (h : http2grpcModifier) :
    (run h ops).bodyAsStatusMessage = h.bodyAsStatusMessage ∧
    (run h ops).responseWriterFlusher = h.responseWriterFlusher ∧
    (run h ops).responseWriter.isFlusher = h.responseWriter.isFlusher ∧
    (run h ops).responseWriter.writeReply = h.responseWriter.writeReply := by
  induction ops generalizing h with
  | nil => simp [run_nil]
  | cons o ops ih =>
    obtain ⟨a, b, c, d⟩ := step_static h o
    obtain ⟨a2, b2, c2, d2⟩ := ih (step h o)
    rw [run_cons]
    exact ⟨a2.trans a, b2.trans b, c2.trans c, d2.trans d⟩

/-! ## What the sink receives -/

/-- The buffers an operation hands to the sink: `Write` hands one, the other
operations none. -/
theorem step_bodies (h : http2grpcModifier) (o : Op) :
    (step h o).responseWriter.bodies =
      h.responseWriter.bodies ++
        (match o with
          | Op.Write b => [sentBody h b]
          | _ => []) := by
  unfold ResponseWriter.bodies
  rw [step_calls]
  cases o with
  | Header f => simp [Op.commits]
  | WriteHeader s => cases h.headerSent <;> simp [Op.commits]
  | Write b => cases h.headerSent <;> cases h.responseWriterFlusher <;> simp [Op.commits]
  | Flush => cases h.headerSent <;> cases h.responseWriter.isFlusher <;> simp [Op.commits]
  | Hijack => cases h.responseWriter.isHijacker <;> simp [Op.commits]

/-- The status codes an operation hands to the sink: 200 when it commits the
response, none otherwise. -/
theorem step_statusCodes (h : http2grpcModifier) (o : Op) :
    (step h o).responseWriter.statusCodes =
      h.responseWriter.statusCodes ++
        (if o.commits = true ∧ h.headerSent = false then [200] else []) := by
  unfold ResponseWriter.statusCodes
  rw [step_calls]
  cases o with
  | Header f => simp [Op.commits]
  | WriteHeader s => cases h.headerSent <;> simp [Op.commits]
  | Write b => cases h.headerSent <;> cases h.responseWriterFlusher <;> simp [Op.commits]
  | Flush => cases h.headerSent <;> cases h.responseWriter.isFlusher <;> simp [Op.commits]
  | Hijack => cases h.responseWriter.isHijacker <;> simp [Op.commits]

/-- Writes on a response converted with a status other than 200: each one
hands the empty frame to the sink. -/
theorem run_writes_frames (bodies : List (List UInt8)) (h : http2grpcModifier)
    (hs : h.headerSent = true) (hg : h.backendUseGrpc = false)
    (hc : h.sentHTTPStatusCode ≠ 200) :
    (run h (bodies.map Op.Write)).responseWriter.bodies =
      h.responseWriter.bodies ++ List.replicate bodies.length EmptyGrpcBody := by
  induction bodies generalizing h with
  | nil => simp [run_nil]
  | cons b bodies ih =>
    obtain ⟨a1, a2, a3, _, _⟩ := step_sent_fields h (Op.Write b) hs
    have hb : sentBody h b = EmptyGrpcBody := by
      simp [sentBody, hg, hc, StatusOK]
    rw [List.map_cons, run_cons, ih (step h (Op.Write b)) a1 (a2.trans hg) (by rw [a3]; exact hc),
      step_bodies]
    simp [hb, List.replicate_succ]

/-- C11 as stated fails: after `WriteHeader(404)` and two `Write` calls on a
converted response the sink has received ten bytes, two frames, not the
single 5-byte frame. -/
theorem two_writes_send_two_frames :
    (run (newHTTP2grpcModifier recorder false)
        [Op.WriteHeader 404, Op.Write [1], Op.Write [2]]).responseWriter.body =
      [0, 0, 0, 0, 0, 0, 0, 0, 0, 0] ∧
    ¬ (run (newHTTP2grpcModifier recorder false)
        [Op.WriteHeader 404, Op.Write [1], Op.Write [2]]).responseWriter.body =
      EmptyGrpcBody := by
  decide

/-- C11 amended: on a converted response with backend status `s ≠ 200`, every
`Write` hands exactly the 5-byte empty frame to the sink, whatever its buffer:
after `WriteHeader(s)` and `n` writes on a fresh modifier over a sink that has
received nothing yet, the sink has received `n` frames, `5 * n` bytes, and so
the single frame when `n = 1`. -/
theorem each_write_sends_one_frame (rw : ResponseWriter) (m : Bool) (s : Int)
    (bodies : List (List UInt8))
    (hfresh : rw.calls = [])
    (hs : s ≠ 200)
    (h1 : rw.header.Get ContentTypeHeaderName ≠ ContentTypeHeaderGrpcValue)
    (h2 : rw.header.Get ContentTypeHeaderName ≠ ContentTypeHeaderGrpcWithBodyValue) :
    (run (newHTTP2grpcModifier rw m)
        (Op.WriteHeader s :: bodies.map Op.Write)).responseWriter.bodies =
      List.replicate bodies.length EmptyGrpcBody ∧
    (run (newHTTP2grpcModifier rw m)
        (Op.WriteHeader s :: bodies.map Op.Write)).responseWriter.body.length =
      5 * bodies.length ∧
    (bodies.length = 1 →
      (run (newHTTP2grpcModifier rw m)
        (Op.WriteHeader s :: bodies.map Op.Write)).responseWriter.body = [0, 0, 0, 0, 0]) := by
  obtain ⟨_, a, _, c, d⟩ := commit_convert_fresh rw m (Op.WriteHeader s) rfl h1 h2
  have hb0 : (step (newHTTP2grpcModifier rw m) (Op.WriteHeader s)).responseWriter.bodies = [] := by
    rw [step_bodies, new_responseWriter]
    simp [ResponseWriter.bodies, hfresh]
  have hb : (run (newHTTP2grpcModifier rw m)
      (Op.WriteHeader s :: bodies.map Op.Write)).responseWriter.bodies =
      List.replicate bodies.length EmptyGrpcBody := by
    rw [run_cons, run_writes_frames bodies _ a c (by rw [d]; exact hs), hb0]
    simp
  refine ⟨hb, ?_, ?_⟩
  · simp only [ResponseWriter.body, hb]
    simp [EmptyGrpcBody, List.length_flatten]
    omega
  · intro hn
    simp only [ResponseWriter.body, hb, hn]
    rfl

/-- C11 amended at the recorder: status 404 and the three bodies "a", "bc"
and the empty one. -/
theorem each_write_sends_one_frame_witness :
    (run (newHTTP2grpcModifier recorder true)
        (Op.WriteHeader 404 :: [[97], [98, 99], []].map Op.Write)).responseWriter.bodies =
      List.replicate [[97], [98, 99], ([] : List UInt8)].length EmptyGrpcBody ∧
    (run (newHTTP2grpcModifier recorder true)
        (Op.WriteHeader 404 :: [[97], [98, 99], []].map Op.Write)).responseWriter.body.length =
      5 * [[97], [98, 99], ([] : List UInt8)].length ∧
    ([[97], [98, 99], ([] : List UInt8)].length = 1 →
      (run (newHTTP2grpcModifier recorder true)
        (Op.WriteHeader 404 :: [[97], [98, 99], []].map Op.Write)).responseWriter.body =
        [0, 0, 0, 0, 0]) :=
  each_write_sends_one_frame recorder true 404 [[97], [98, 99], []] rfl (by decide)
    (by decide) (by decide)

/-! ## Construction of the handler -/

/-- C12: `New` returns a handler and no error exactly when `config.LogLevel`
is "info" or "debug"; for every other string it returns no handler and the
error with the message "ERROR: http2grpc: " followed by that string, so the
empty string and "INFO" are refused; the configuration of `CreateConfig` is
accepted. -/
theorem New_accepts_info_and_debug {Handler : Type} (loggers : Loggers) (next : Handler)
    (config : Config) (name : String) :
    (succeeded (New loggers next config name) = true ↔
      (config.LogLevel = "info" ∨ config.LogLevel = "debug")) ∧
    (¬ (config.LogLevel = "info" ∨ config.LogLevel = "debug") →
      (New loggers next config name).2 =
        Except.error ("ERROR: http2grpc: " ++ config.LogLevel)) ∧
    (succeeded (New loggers next config name) = false ↔
      errorMessage (New loggers next config name) =
        some ("ERROR: http2grpc: " ++ config.LogLevel)) ∧
    succeeded (New loggers next { config with LogLevel := "" } name) = false ∧
    succeeded (New loggers next { config with LogLevel := "INFO" } name) = false ∧
    succeeded (New loggers next CreateConfig name) = true ∧
    CreateConfig.LogLevel = "info" ∧ CreateConfig.BodyAsStatusMessage = false := by
  have hinfo : ¬ ("" : String) = "info" := by decide
  have hdebug : ¬ ("" : String) = "debug" := by decide
  have hINFO : ¬ ("INFO" : String) = "info" := by decide
  have hINFO2 : ¬ ("INFO" : String) = "debug" := by decide
  refine ⟨?_, ?_, ?_, ?_, ?_, ?_, rfl, rfl⟩
  · unfold New succeeded
    by_cases h1 : config.LogLevel = "info"
    · simp [h1]
    · by_cases h2 : config.LogLevel = "debug"
      · simp [h2]
      · simp [h1, h2]
  · intro h
    have h1 : ¬ config.LogLevel = "info" := fun e => h (Or.inl e)
    have h2 : ¬ config.LogLevel = "debug" := fun e => h (Or.inr e)
    simp [New, h1, h2]
  · unfold New succeeded errorMessage
    by_cases h1 : config.LogLevel = "info"
    · simp [h1]
    · by_cases h2 : config.LogLevel = "debug"
      · simp [h2]
      · simp [h1, h2]
  · simp [New, succeeded, hinfo, hdebug]
  · simp [New, succeeded, hINFO, hINFO2]
  · simp [New, succeeded, CreateConfig]

/-- C12 at the level "warn": refused with the message
"ERROR: http2grpc: warn". -/
theorem New_accepts_info_and_debug_witness :
    (New discardLoggers () { LogLevel := "warn", BodyAsStatusMessage := true } "http2grpc").2 =
      Except.error ("ERROR: http2grpc: " ++ "warn") :=
  (New_accepts_info_and_debug discardLoggers ()
    { LogLevel := "warn", BodyAsStatusMessage := true } "http2grpc").2.1 (by decide)

/-! ## Explicit flush -/

/-- C13: `Flush` on a fresh modifier commits the response with status 200:
afterwards `headerSent` is true, the stored status is 200, the sink has
received `WriteHeader(200)` and then one `Flush` when it can flush and
nothing more when it cannot, and on a Content-Type that is not a gRPC value
`grpc-status` is "0".  On a committed modifier `Flush` leaves the header map
and every field of the modifier as they are and only hands the flush to the
sink (when the sink can flush). -/
theorem flush_commits_with_200 (rw : ResponseWriter) (m : Bool) (h : http2grpcModifier) :
    (newHTTP2grpcModifier rw m).Flush.headerSent = true ∧
    (newHTTP2grpcModifier rw m).Flush.sentHTTPStatusCode = 200 ∧
    (newHTTP2grpcModifier rw m).Flush.responseWriter.calls =
      rw.calls ++ SinkCall.writeHeader 200 ::
        (if rw.isFlusher = true then [SinkCall.flush] else []) ∧
    (rw.calls = [] →
      (newHTTP2grpcModifier rw m).Flush.responseWriter.statusCodes = [200] ∧
      (newHTTP2grpcModifier rw m).Flush.responseWriter.flushCount =
        (if rw.isFlusher = true then 1 else 0)) ∧
    (rw.header.Get ContentTypeHeaderName ≠ ContentTypeHeaderGrpcValue →
      rw.header.Get ContentTypeHeaderName ≠ ContentTypeHeaderGrpcWithBodyValue →
      (newHTTP2grpcModifier rw m).Flush.Header.Get GrpcStatusHeaderName = "0") ∧
    (h.headerSent = true →
      h.Flush =
        { h with
          responseWriter :=
            { h.responseWriter with
              calls := h.responseWriter.calls ++
                (if h.responseWriter.isFlusher = true then [SinkCall.flush] else []) } }) := by
  have hcalls : (newHTTP2grpcModifier rw m).Flush.responseWriter.calls =
      rw.calls ++ SinkCall.writeHeader 200 ::
        (if rw.isFlusher = true then [SinkCall.flush] else []) := by
    have e := step_calls (newHTTP2grpcModifier rw m) Op.Flush
    simp only [step, new_responseWriter, new_headerSent, Op.commits, and_self, if_true,
      List.append_assoc, List.singleton_append] at e
    exact e
  refine ⟨step_commits_headerSent _ Op.Flush rfl,
    step_commits_status _ Op.Flush rfl (new_headerSent rw m), hcalls, ?_, ?_, ?_⟩
  · intro hfresh
    simp only [ResponseWriter.statusCodes, ResponseWriter.flushCount, hcalls, hfresh]
    cases rw.isFlusher <;> simp
  · intro h1 h2
    obtain ⟨e, _⟩ := commit_convert_fresh rw m Op.Flush rfl h1 h2
    simp only [step] at e
    simp only [http2grpcModifier.Header, Header.Get, GrpcStatusHeaderName, canonical_GrpcStatus,
      e, convertedHeader_GrpcStatus, Op.commitStatus, StatusOK]
    decide
  · intro hs
    rw [Flush_eq, WriteHeader_sent h 200 hs]

/-- C13 at the recorder: on the fresh modifier `Flush` sends status 200 and
one flush and sets `grpc-status` to "0"; on the modifier committed by
`WriteHeader(404)` it only adds one flush. -/
theorem flush_commits_with_200_witness :
    ((newHTTP2grpcModifier recorder true).Flush.responseWriter.statusCodes = [200] ∧
      (newHTTP2grpcModifier recorder true).Flush.responseWriter.flushCount =
        (if recorder.isFlusher = true then 1 else 0)) ∧
    (newHTTP2grpcModifier recorder true).Flush.Header.Get GrpcStatusHeaderName = "0" ∧
    ((newHTTP2grpcModifier recorder true).WriteHeader 404).Flush =
      { (newHTTP2grpcModifier recorder true).WriteHeader 404 with
        responseWriter :=
          { ((newHTTP2grpcModifier recorder true).WriteHeader 404).responseWriter with
            calls := ((newHTTP2grpcModifier recorder true).WriteHeader 404).responseWriter.calls ++
              (if ((newHTTP2grpcModifier recorder true).WriteHeader 404).responseWriter.isFlusher
                  = true then [SinkCall.flush] else []) } } :=
  ⟨(flush_commits_with_200 recorder true (newHTTP2grpcModifier recorder true)).2.2.2.1 rfl,
    (flush_commits_with_200 recorder true
      (newHTTP2grpcModifier recorder true)).2.2.2.2.1 (by decide) (by decide),
    (flush_commits_with_200 recorder true
      ((newHTTP2grpcModifier recorder true).WriteHeader 404)).2.2.2.2.2 (by decide)⟩

/-! ## The result of Write -/

/-- C14: for every modifier state and every buffer, the count and the error
that `Write` returns are the answer of the one `Write` call it makes on the
sink, unchanged, so it returns an error exactly when that call did, and the
same one; the commit step before and the flush after do not touch it: a sink
whose `Write` always answers with the error `e` (`nil` or not) makes `Write`
return `e`. -/
theorem write_returns_sink_answer (h : http2grpcModifier) (buf : List UInt8) (e : GoError) :
    (h.Write buf).2 = ((sinkAtWrite h buf).Write (sentBody h buf)).2 ∧
    (h.Write buf).2.2 = ((sinkAtWrite h buf).Write (sentBody h buf)).2.2 ∧
    ((h.Write buf).2.2 ≠ none ↔ ((sinkAtWrite h buf).Write (sentBody h buf)).2.2 ≠ none) ∧
    (h.Write buf).1.responseWriter.calls =
      (sinkAtWrite h buf).calls ++ SinkCall.write (sentBody h buf) ::
        (if h.responseWriterFlusher = true then [SinkCall.flush] else []) ∧
    ((∀ (hd : Header) (calls : List SinkCall) (body : List UInt8),
        (h.responseWriter.writeReply hd calls body).2 = e) →
      (h.Write buf).2.2 = e) := by
  have e1 : (h.Write buf).2 = ((sinkAtWrite h buf).Write (sentBody h buf)).2 := by
    rw [Write_eq]
    rfl
  refine ⟨e1, by rw [e1], by rw [e1], ?_, ?_⟩
  · rw [Write_eq]
    simp [(WriteHeader_static h 200).2.1]
  · intro hall
    rw [e1]
    simp only [ResponseWriter.Write, (sinkAtWrite_static h buf).2]
    exact hall _ _ _

/-- C14 at a recorder whose `Write` fails with "broken pipe": `Write` on the
fresh modifier returns that error. -/
theorem write_returns_sink_answer_witness :
    ((newHTTP2grpcModifier (failingRecorder "broken pipe") false).Write [1, 2]).2.2 =
      some "broken pipe" :=
  (write_returns_sink_answer (newHTTP2grpcModifier (failingRecorder "broken pipe") false)
    [1, 2] (some "broken pipe")).2.2.2.2 (fun _ _ _ => rfl)

/-! ## The status line -/

/-- The status codes received by the sink during a run on any state. -/
theorem run_statusCodes (ops : List Op) (h : http2grpcModifier) :
    (run h ops).responseWriter.statusCodes =
      h.responseWriter.statusCodes ++
        (if h.headerSent = false ∧ (run h ops).headerSent = true then [200] else []) := by
  induction ops generalizing h with
  | nil =>
    cases hs : h.headerSent <;> simp [run_nil, hs]
  | cons o ops ih =>
    rw [run_cons, ih (step h o), step_statusCodes]
    by_cases hs : h.headerSent = true
    · have a := (step_sent_fields h o hs).1
      simp [hs, a]
    · have hs2 : h.headerSent = false := by simpa using hs
      by_cases hc : o.commits = true
      · have a := step_commits_headerSent h o hc
        have b := (run_sent_fields ops (step h o) a).1
        simp [hs2, hc, a, b]
      · have hc2 : o.commits = false := by simpa using hc
        have a := (step_noncommit_fields h o hc2).1
        simp [hs2, hc2, a]

/-- C15: for every sequence of operations on a fresh modifier over a sink
that has received nothing yet, the status codes the sink has received are the
single 200 when `headerSent` is true and none when it is false: never a value
other than 200, never more than one, and exactly one if and only if
`headerSent` is true. -/
theorem status_line_is_200_once (rw : ResponseWriter) (m : Bool) (ops : List Op)
    (hfresh : rw.calls = []) :
    (run (newHTTP2grpcModifier rw m) ops).responseWriter.statusCodes =
      (if (run (newHTTP2grpcModifier rw m) ops).headerSent = true then [200] else []) ∧
    (∀ s ∈ (run (newHTTP2grpcModifier rw m) ops).responseWriter.statusCodes, s = 200) ∧
    (run (newHTTP2grpcModifier rw m) ops).responseWriter.statusCodes.length ≤ 1 ∧
    ((run (newHTTP2grpcModifier rw m) ops).responseWriter.statusCodes.length = 1 ↔
      (run (newHTTP2grpcModifier rw m) ops).headerSent = true) := by
  have e : (run (newHTTP2grpcModifier rw m) ops).responseWriter.statusCodes =
      (if (run (newHTTP2grpcModifier rw m) ops).headerSent = true then [200] else []) := by
    rw [run_statusCodes, new_responseWriter, new_headerSent]
    simp [ResponseWriter.statusCodes, hfresh]
  rw [e]
  cases (run (newHTTP2grpcModifier rw m) ops).headerSent <;> simp

/-- C15 at the recorder, for a backend that writes a body, then reports 404
and 500, flushes and writes again. -/
theorem status_line_is_200_once_witness :
    (run (newHTTP2grpcModifier recorder false)
        [Op.Write [1], Op.WriteHeader 404, Op.WriteHeader 500, Op.Flush,
          Op.Write [2]]).responseWriter.statusCodes =
      (if (run (newHTTP2grpcModifier recorder false)
        [Op.Write [1], Op.WriteHeader 404, Op.WriteHeader 500, Op.Flush,
          Op.Write [2]]).headerSent = true then [200] else []) :=
  (status_line_is_200_once recorder false
    [Op.Write [1], Op.WriteHeader 404, Op.WriteHeader 500, Op.Flush, Op.Write [2]] rfl).1

/-! ## The classification of the response -/

theorem check_iff (h : http2grpcModifier) :
    h.checkResponseInGrpcFormat = true ↔
      (h.responseWriter.header.Get ContentTypeHeaderName = ContentTypeHeaderGrpcValue ∨
        h.responseWriter.header.Get ContentTypeHeaderName =
          ContentTypeHeaderGrpcWithBodyValue) := by
  simp [http2grpcModifier.checkResponseInGrpcFormat]

/-- The branch taken by the commit of an uncommitted modifier is the value of
`checkResponseInGrpcFormat`. -/
theorem step_commits_backendUseGrpc (h : http2grpcModifier) (o : Op) (hc : o.commits = true)
    (hs : h.headerSent = false) (hg : h.backendUseGrpc = false) :
    (step h o).backendUseGrpc = h.checkResponseInGrpcFormat := by
  have hw : ∀ s, (h.WriteHeader s).backendUseGrpc = h.checkResponseInGrpcFormat := by
    intro s
    by_cases hch : h.checkResponseInGrpcFormat = true
    · rw [WriteHeader_passthrough h s hs hch, hch]
    · have hch2 : h.checkResponseInGrpcFormat = false := by simpa using hch
      rw [WriteHeader_convert h s hs hch2, hch2]
      exact hg
  cases o with
  | Header f => simp [Op.commits] at hc
  | Hijack => simp [Op.commits] at hc
  | WriteHeader s => exact hw s
  | Write b => simp only [step]; rw [(Write_fields h b).2.1]; exact hw 200
  | Flush => simp only [step, Flush_eq]; exact hw 200

/-- C16: at the commit of a fresh modifier (by `WriteHeader`, `Write` or
`Flush`) the passthrough branch is taken if and only if the first value of
`Content-Type` is exactly "application/grpc" or "application/grpc+proto";
an absent or empty Content-Type, "application/grpc+json",
"application/grpc; charset=utf-8" and "Application/GRPC" take the convert
branch. -/
theorem classification_is_exact_match (rw : ResponseWriter) (m : Bool) (c : Op)
    (hc : c.commits = true) :
    ((step (newHTTP2grpcModifier rw m) c).backendUseGrpc = true ↔
      (rw.header.Get ContentTypeHeaderName = "application/grpc" ∨
        rw.header.Get ContentTypeHeaderName = "application/grpc+proto")) ∧
    (newHTTP2grpcModifier (recorderWith emptyHeader) m).checkResponseInGrpcFormat = false ∧
    (newHTTP2grpcModifier (recorderWith (emptyHeader.Set ContentTypeHeaderName ""))
      m).checkResponseInGrpcFormat = false ∧
    (newHTTP2grpcModifier (recorderWith (emptyHeader.Set ContentTypeHeaderName
      "application/grpc+json")) m).checkResponseInGrpcFormat = false ∧
    (newHTTP2grpcModifier (recorderWith (emptyHeader.Set ContentTypeHeaderName
      "application/grpc; charset=utf-8")) m).checkResponseInGrpcFormat = false ∧
    (newHTTP2grpcModifier (recorderWith (emptyHeader.Set ContentTypeHeaderName
      "Application/GRPC")) m).checkResponseInGrpcFormat = false ∧
    (newHTTP2grpcModifier (recorderWith (emptyHeader.Set ContentTypeHeaderName
      "application/grpc")) m).checkResponseInGrpcFormat = true ∧
    (newHTTP2grpcModifier (recorderWith (emptyHeader.Set ContentTypeHeaderName
      "application/grpc+proto")) m).checkResponseInGrpcFormat = true := by
  refine ⟨?_, ?_, ?_, ?_, ?_, ?_, ?_, ?_⟩
  · rw [step_commits_backendUseGrpc _ c hc (new_headerSent rw m) (new_backendUseGrpc rw m),
      check_iff, new_responseWriter]
    rfl
  all_goals cases m <;> decide

/-- C16 at a recorder whose Content-Type is "application/grpc+json", commit
by `Write`: the convert branch. -/
theorem classification_is_exact_match_witness :
    ((step (newHTTP2grpcModifier (recorderWith (emptyHeader.Set ContentTypeHeaderName
        "application/grpc+json")) false) (Op.Write [1])).backendUseGrpc = true ↔
      ((recorderWith (emptyHeader.Set ContentTypeHeaderName
          "application/grpc+json")).header.Get ContentTypeHeaderName = "application/grpc" ∨
        (recorderWith (emptyHeader.Set ContentTypeHeaderName
          "application/grpc+json")).header.Get ContentTypeHeaderName =
          "application/grpc+proto")) :=
  (classification_is_exact_match
    (recorderWith (emptyHeader.Set ContentTypeHeaderName "application/grpc+json")) false
    (Op.Write [1]) rfl).1

/-- C17: the classification is that of the commit.  After `WriteHeader(s)`
on a fresh modifier and any later operations of the backend, changes of the
header map through `Header()` included: if the response was committed as
converted and `s ≠ 200`, a `Write` still hands the 5-byte empty frame to the
sink; if it was committed as passthrough, a `Write` still hands its buffer to
the sink and leaves the header map as it is. -/
theorem classification_fixed_at_commit (rw : ResponseWriter) (m : Bool) (s : Int)
    (ops : List Op) (b : List UInt8) :
    (s ≠ 200 →
      rw.header.Get ContentTypeHeaderName ≠ ContentTypeHeaderGrpcValue →
      rw.header.Get ContentTypeHeaderName ≠ ContentTypeHeaderGrpcWithBodyValue →
      ((run ((newHTTP2grpcModifier rw m).WriteHeader s) ops).Write b).1.responseWriter.bodies =
        (run ((newHTTP2grpcModifier rw m).WriteHeader s) ops).responseWriter.bodies ++
          [EmptyGrpcBody]) ∧
    ((rw.header.Get ContentTypeHeaderName = ContentTypeHeaderGrpcValue ∨
        rw.header.Get ContentTypeHeaderName = ContentTypeHeaderGrpcWithBodyValue) →
      ((run ((newHTTP2grpcModifier rw m).WriteHeader s) ops).Write b).1.responseWriter.bodies =
        (run ((newHTTP2grpcModifier rw m).WriteHeader s) ops).responseWriter.bodies ++ [b] ∧
      ((run ((newHTTP2grpcModifier rw m).WriteHeader s) ops).Write b).1.responseWriter.header =
        (run ((newHTTP2grpcModifier rw m).WriteHeader s) ops).responseWriter.header) := by
  have hbod := fun h => step_bodies h (Op.Write b)
  simp only [step] at hbod
  constructor
  · intro hs h1 h2
    obtain ⟨_, a, _, c, d⟩ := commit_convert_fresh rw m (Op.WriteHeader s) rfl h1 h2
    simp only [step, Op.commitStatus] at a c d
    obtain ⟨_, c2, d2, _, _⟩ := run_sent_fields ops _ a
    rw [hbod]
    simp [sentBody, c2, d2, c, d, hs, StatusOK]
  · intro hct
    obtain ⟨e1, _⟩ := passthrough_then_write rw m s b hct
    have a : ((newHTTP2grpcModifier rw m).WriteHeader s).headerSent = true := by rw [e1]
    have c : ((newHTTP2grpcModifier rw m).WriteHeader s).backendUseGrpc = true := by rw [e1]
    obtain ⟨a2, c2, _, _, _⟩ := run_sent_fields ops _ a
    constructor
    · rw [hbod]
      simp [sentBody, c2, c]
    · have e := step_sent_header (run ((newHTTP2grpcModifier rw m).WriteHeader s) ops)
        (Op.Write b) a2
      simp only [step] at e
      rw [e]
      simp [writtenHeader, c2, c]

/-- C17 at the recorder: after a commit as converted with status 404 the
backend sets Content-Type to "application/grpc", and the next `Write` still
sends the empty frame; after a commit as passthrough the backend sets
Content-Type to "text/plain", and the next `Write` still sends its buffer and
leaves the header map as it is. -/
theorem classification_fixed_at_commit_witness :
    (((run ((newHTTP2grpcModifier recorder false).WriteHeader 404)
        [Op.Header (fun hd => hd.Set ContentTypeHeaderName ContentTypeHeaderGrpcValue)]).Write
        [1, 2]).1.responseWriter.bodies =
      (run ((newHTTP2grpcModifier recorder false).WriteHeader 404)
        [Op.Header (fun hd => hd.Set ContentTypeHeaderName
          ContentTypeHeaderGrpcValue)]).responseWriter.bodies ++ [EmptyGrpcBody]) ∧
    (((run ((newHTTP2grpcModifier (recorderWith (emptyHeader.Set ContentTypeHeaderName
        ContentTypeHeaderGrpcValue)) true).WriteHeader 404)
        [Op.Header (fun hd => hd.Set ContentTypeHeaderName "text/plain")]).Write
        [1, 2]).1.responseWriter.bodies =
      (run ((newHTTP2grpcModifier (recorderWith (emptyHeader.Set ContentTypeHeaderName
        ContentTypeHeaderGrpcValue)) true).WriteHeader 404)
        [Op.Header (fun hd => hd.Set ContentTypeHeaderName
          "text/plain")]).responseWriter.bodies ++ [[1, 2]] ∧
      ((run ((newHTTP2grpcModifier (recorderWith (emptyHeader.Set ContentTypeHeaderName
        ContentTypeHeaderGrpcValue)) true).WriteHeader 404)
        [Op.Header (fun hd => hd.Set ContentTypeHeaderName "text/plain")]).Write
        [1, 2]).1.responseWriter.header =
      (run ((newHTTP2grpcModifier (recorderWith (emptyHeader.Set ContentTypeHeaderName
        ContentTypeHeaderGrpcValue)) true).WriteHeader 404)
        [Op.Header (fun hd => hd.Set ContentTypeHeaderName
          "text/plain")]).responseWriter.header) :=
  ⟨(classification_fixed_at_commit recorder false 404
      [Op.Header (fun hd => hd.Set ContentTypeHeaderName ContentTypeHeaderGrpcValue)]
      [1, 2]).1 (by decide) (by decide) (by decide),
    (classification_fixed_at_commit
      (recorderWith (emptyHeader.Set ContentTypeHeaderName ContentTypeHeaderGrpcValue)) true 404
      [Op.Header (fun hd => hd.Set ContentTypeHeaderName "text/plain")]
      [1, 2]).2 (Or.inl (by decide))⟩

/-! ## The flush after each write -/

/-- C18: for every state reached by a modifier built over the sink `rw` and
every buffer, the calls `Write` makes on the sink are the commit when it is
still due, then the `Write` of the body, then exactly one `Flush` when `rw`
can flush and none when it cannot, whatever the sink answers to the
`Write`. -/
theorem write_flushes_after_body (rw : ResponseWriter) (m : Bool) (ops : List Op)
    (buf : List UInt8) :
    ((run (newHTTP2grpcModifier rw m) ops).Write buf).1.responseWriter.calls =
      (run (newHTTP2grpcModifier rw m) ops).responseWriter.calls ++
        (if (run (newHTTP2grpcModifier rw m) ops).headerSent = false
          then [SinkCall.writeHeader 200] else []) ++
        SinkCall.write (sentBody (run (newHTTP2grpcModifier rw m) ops) buf) ::
          (if rw.isFlusher = true then [SinkCall.flush] else []) ∧
    ((run (newHTTP2grpcModifier rw m) ops).Write buf).1.responseWriter.flushCount =
      (run (newHTTP2grpcModifier rw m) ops).responseWriter.flushCount +
        (if rw.isFlusher = true then 1 else 0) := by
  have hf : (run (newHTTP2grpcModifier rw m) ops).responseWriterFlusher = rw.isFlusher :=
    (run_static ops _).2.1.trans (new_responseWriterFlusher rw m)
  have e := step_calls (run (newHTTP2grpcModifier rw m) ops) (Op.Write buf)
  simp only [step, Op.commits, true_and, hf] at e
  refine ⟨e, ?_⟩
  simp only [ResponseWriter.flushCount, e]
  cases (run (newHTTP2grpcModifier rw m) ops).headerSent <;> cases rw.isFlusher <;>
    simp [List.count_cons]

/-! ## The implicit status write -/

/-- C19: on a fresh modifier, with any header map and configuration,
`Write(b)` yields the same state (modifier fields, header map, calls received
by the sink) and the same count and error as `WriteHeader(200)` followed by
`Write(b)`. -/
theorem write_commits_as_writeHeader_200 (rw : ResponseWriter) (m : Bool) (b : List UInt8) :
    (newHTTP2grpcModifier rw m).Write b =
      ((newHTTP2grpcModifier rw m).WriteHeader 200).Write b :=
  Write_unsent _ b (new_backendUseGrpc rw m) (new_sentHTTPStatusCode rw m)

/-! ## The count returned by Write -/

/-- C20: on a converted response with backend status `s ≠ 200`, over a sink
that accepts every buffer in full, `Write` returns the count 5 and no error
for every buffer: the count differs from the length of the buffer unless that
length is 5, it is smaller for a longer buffer and larger for a shorter
one. -/
theorem write_returns_frame_length (rw : ResponseWriter) (m : Bool) (s : Int)
    (buf : List UInt8)
    (hacc : acceptsAll rw)
    (hs : s ≠ 200)
    (h1 : rw.header.Get ContentTypeHeaderName ≠ ContentTypeHeaderGrpcValue)
    (h2 : rw.header.Get ContentTypeHeaderName ≠ ContentTypeHeaderGrpcWithBodyValue) :
    (((newHTTP2grpcModifier rw m).WriteHeader s).Write buf).2 = (5, none) ∧
    (buf.length ≠ 5 →
      (((newHTTP2grpcModifier rw m).WriteHeader s).Write buf).2.1 ≠ (buf.length : Int)) ∧
    (5 < buf.length →
      (((newHTTP2grpcModifier rw m).WriteHeader s).Write buf).2.1 < (buf.length : Int)) ∧
    (buf.length < 5 →
      (buf.length : Int) < (((newHTTP2grpcModifier rw m).WriteHeader s).Write buf).2.1) := by
  obtain ⟨_, a, _, c, d⟩ := commit_convert_fresh rw m (Op.WriteHeader s) rfl h1 h2
  simp only [step, Op.commitStatus] at a c d
  have hw : ((newHTTP2grpcModifier rw m).WriteHeader s).responseWriter.writeReply =
      rw.writeReply := by
    rw [(WriteHeader_static _ s).2.2.2, new_responseWriter]
  have e : (((newHTTP2grpcModifier rw m).WriteHeader s).Write buf).2 = (5, none) := by
    rw [Write_sent _ buf a]
    simp only [hw, hacc _ _ _]
    simp [sentBody, c, d, hs, StatusOK, EmptyGrpcBody]
  rw [e]
  refine ⟨rfl, ?_, ?_, ?_⟩
  · intro h; simp only; omega
  · intro h; simp only; omega
  · intro h; simp only; omega

/-- C20 at the recorder, status 500: the empty buffer gives the count 5. -/
theorem write_returns_frame_length_witness :
    (((newHTTP2grpcModifier recorder false).WriteHeader 500).Write []).2 = (5, none) ∧
    ((([] : List UInt8)).length ≠ 5 →
      (((newHTTP2grpcModifier recorder false).WriteHeader 500).Write []).2.1 ≠
        ((([] : List UInt8)).length : Int)) ∧
    (5 < (([] : List UInt8)).length →
      (((newHTTP2grpcModifier recorder false).WriteHeader 500).Write []).2.1 <
        ((([] : List UInt8)).length : Int)) ∧
    ((([] : List UInt8)).length < 5 →
      ((([] : List UInt8)).length : Int) <
        (((newHTTP2grpcModifier recorder false).WriteHeader 500).Write []).2.1) :=
  write_returns_frame_length recorder false 500 [] (fun _ _ _ => rfl) (by decide) (by decide)
    (by decide)

/-! ## The status message taken from the body -/

/-- C21: with `bodyAsStatusMessage = true` on a converted response with
backend status `s ≠ 200`, after `WriteHeader(s)` and the writes of
`b1, ..., bn` (`n ≥ 1`, here `bodies ++ [bn]`) the `grpc-message` header is
`string(bn)`, the text of the last chunk alone, and not the text of the
concatenation unless the two are the same bytes; and after `WriteHeader(s)`
alone `grpc-message` is what the backend had set, absent when it had set
nothing. -/
theorem grpcMessage_is_last_chunk (rw : ResponseWriter) (s : Int)
    (bodies : List (List UInt8)) (bn : List UInt8)
    (hs : s ≠ 200)
    (h1 : rw.header.Get ContentTypeHeaderName ≠ ContentTypeHeaderGrpcValue)
    (h2 : rw.header.Get ContentTypeHeaderName ≠ ContentTypeHeaderGrpcWithBodyValue) :
    (run (newHTTP2grpcModifier rw true)
        (Op.WriteHeader s :: (bodies ++ [bn]).map Op.Write)).Header.Values
        GrpcMessageHeaderName = [goString bn] ∧
    (run (newHTTP2grpcModifier rw true)
        (Op.WriteHeader s :: (bodies ++ [bn]).map Op.Write)).Header.Get
        GrpcMessageHeaderName = goString bn ∧
    ((bodies ++ [bn]).flatten ≠ bn →
      (run (newHTTP2grpcModifier rw true)
        (Op.WriteHeader s :: (bodies ++ [bn]).map Op.Write)).Header.Values
        GrpcMessageHeaderName ≠ [goString (bodies ++ [bn]).flatten]) ∧
    ((newHTTP2grpcModifier rw true).WriteHeader s).Header
        (CanonicalMIMEHeaderKey GrpcMessageHeaderName) =
      rw.header (CanonicalMIMEHeaderKey GrpcMessageHeaderName) := by
  obtain ⟨e, a, b, c, d⟩ := commit_convert_fresh rw true (Op.WriteHeader s) rfl h1 h2
  obtain ⟨a2, c2, d2, b2, _⟩ :=
    run_sent_fields (bodies.map Op.Write) (step (newHTTP2grpcModifier rw true) (Op.WriteHeader s)) a
  have hrun : (run (newHTTP2grpcModifier rw true)
      (Op.WriteHeader s :: (bodies ++ [bn]).map Op.Write)).responseWriter.header =
      (run (step (newHTTP2grpcModifier rw true) (Op.WriteHeader s))
        (bodies.map Op.Write)).responseWriter.header.Set GrpcMessageHeaderName (goString bn) := by
    rw [run_cons, List.map_append, run_append]
    simp only [List.map_cons, List.map_nil, run_cons, run_nil]
    rw [step_sent_header _ (Op.Write bn) a2]
    simp only [Op.commitStatus] at d
    simp [writtenHeader, c2, c, d2, d, b2, b, hs, StatusOK]
  have hval : (run (newHTTP2grpcModifier rw true)
      (Op.WriteHeader s :: (bodies ++ [bn]).map Op.Write)).Header.Values
      GrpcMessageHeaderName = [goString bn] := by
    simp only [http2grpcModifier.Header, hrun, Header.Values, Header.Set_apply,
      GrpcMessageHeaderName, canonical_GrpcMessage, if_true, Option.getD_some]
  refine ⟨hval, ?_, ?_, ?_⟩
  · simp only [http2grpcModifier.Header, hrun, Header.Get, Header.Set_apply,
      GrpcMessageHeaderName, canonical_GrpcMessage, if_true]
  · intro hne heq
    rw [hval] at heq
    exact hne (goString_injective (List.cons.inj heq).1).symm
  · simp only [step] at e
    simp only [http2grpcModifier.Header, e, GrpcMessageHeaderName, canonical_GrpcMessage,
      convertedHeader_GrpcMessage]
    simp

/-- C21 at the recorder, status 401, the chunks "a" and "b": the message is
"b", not "ab". -/
theorem grpcMessage_is_last_chunk_witness :
    (run (newHTTP2grpcModifier recorder true)
        (Op.WriteHeader 401 :: ([[97]] ++ [[98]] : List (List UInt8)).map Op.Write)).Header.Values
        GrpcMessageHeaderName = [goString [98]] ∧
    (run (newHTTP2grpcModifier recorder true)
        (Op.WriteHeader 401 :: ([[97]] ++ [[98]] : List (List UInt8)).map Op.Write)).Header.Get
        GrpcMessageHeaderName = goString [98] ∧
    (([[97]] ++ [[98]] : List (List UInt8)).flatten ≠ [98] →
      (run (newHTTP2grpcModifier recorder true)
        (Op.WriteHeader 401 :: ([[97]] ++ [[98]] : List (List UInt8)).map Op.Write)).Header.Values
        GrpcMessageHeaderName ≠ [goString ([[97]] ++ [[98]] : List (List UInt8)).flatten]) ∧
    ((newHTTP2grpcModifier recorder true).WriteHeader 401).Header
        (CanonicalMIMEHeaderKey GrpcMessageHeaderName) =
      recorder.header (CanonicalMIMEHeaderKey GrpcMessageHeaderName) :=
  grpcMessage_is_last_chunk recorder 401 [[97]] [98] (by decide) (by decide) (by decide)

/-! ## The headers the conversion leaves alone -/

/-- Each of the five keys is its own canonical form. -/
theorem conversionKeys_canonical (k : String) (hk : k ∈ conversionKeys) :
    CanonicalMIMEHeaderKey k = k := by
  simp only [conversionKeys, List.mem_cons, List.mem_singleton, List.not_mem_nil,
    or_false] at hk
  rcases hk with rfl | rfl | rfl | rfl | rfl <;> decide

theorem convertedHeader_other (hd : Header) (m : Bool) (s : Int) (k : String)
    (hk : k ∉ conversionKeys) :
    convertedHeader hd m s k = hd k := by
  simp only [conversionKeys, List.mem_cons, List.mem_singleton, List.not_mem_nil, or_false,
    not_or] at hk
  obtain ⟨k1, k2, k3, k4, k5⟩ := hk
  simp [convertedHeader, k1, k2, k3, k4, k5]

/-- Writes on a committed modifier change no key other than
`Grpc-Message`. -/
theorem run_writes_other_keys (bodies : List (List UInt8)) (h : http2grpcModifier)
    (hs : h.headerSent = true) (k : String) (hk : k ≠ "Grpc-Message") :
    (run h (bodies.map Op.Write)).responseWriter.header k = h.responseWriter.header k := by
  induction bodies generalizing h with
  | nil => rfl
  | cons b bodies ih =>
    have a := (step_sent_fields h (Op.Write b) hs).1
    rw [List.map_cons, run_cons, ih (step h (Op.Write b)) a, step_sent_header h (Op.Write b) hs]
    simp only [writtenHeader]
    split
    · simp [Header.Set_apply, GrpcMessageHeaderName, canonical_GrpcMessage, hk]
    · rfl

/-- C22: for every initial header map, status `s`, configuration and list
of later writes, `WriteHeader(s)` on the convert branch followed by the
writes leaves every key of the header map other than `Trailer`,
`Content-Type`, `Content-Length`, `Grpc-Status` and `Grpc-Message` with the
values the backend set (absent when absent); in particular every key whose
canonical name is none of the five. -/
theorem conversion_leaves_other_headers (rw : ResponseWriter) (m : Bool) (s : Int)
    (bodies : List (List UInt8)) (k : String)
    (h1 : rw.header.Get ContentTypeHeaderName ≠ ContentTypeHeaderGrpcValue)
    (h2 : rw.header.Get ContentTypeHeaderName ≠ ContentTypeHeaderGrpcWithBodyValue) :
    (k ∉ conversionKeys →
      (run (newHTTP2grpcModifier rw m)
        (Op.WriteHeader s :: bodies.map Op.Write)).Header k = rw.header k) ∧
    (CanonicalMIMEHeaderKey k ∉ conversionKeys →
      (run (newHTTP2grpcModifier rw m)
        (Op.WriteHeader s :: bodies.map Op.Write)).Header k = rw.header k) := by
  obtain ⟨e, a, _⟩ := commit_convert_fresh rw m (Op.WriteHeader s) rfl h1 h2
  have hraw : k ∉ conversionKeys →
      (run (newHTTP2grpcModifier rw m)
        (Op.WriteHeader s :: bodies.map Op.Write)).Header k = rw.header k := by
    intro hk
    have hmsg : k ≠ "Grpc-Message" := by
      intro hkm
      apply hk
      simp [conversionKeys, hkm]
    simp only [http2grpcModifier.Header]
    rw [run_cons, run_writes_other_keys bodies _ a k hmsg, e, convertedHeader_other _ _ _ k hk]
  refine ⟨hraw, ?_⟩
  intro hc
  apply hraw
  intro hk
  apply hc
  rw [conversionKeys_canonical k hk]
  exact hk

/-- C22 at a recorder whose backend had set `X-Request-Id` and
`Content-Length`: after `WriteHeader(404)` and two writes with
`bodyAsStatusMessage = true`, `X-Request-Id` is as the backend set it. -/
theorem conversion_leaves_other_headers_witness :
    (run (newHTTP2grpcModifier
        (recorderWith ((emptyHeader.Set "X-Request-Id" "7f3a").Set ContentLengthHeaderName "12"))
        true)
        (Op.WriteHeader 404 :: ([[97], [98]] : List (List UInt8)).map Op.Write)).Header
        "X-Request-Id" =
      (recorderWith ((emptyHeader.Set "X-Request-Id" "7f3a").Set ContentLengthHeaderName
        "12")).header "X-Request-Id" ∧
    (run (newHTTP2grpcModifier
        (recorderWith ((emptyHeader.Set "X-Request-Id" "7f3a").Set ContentLengthHeaderName "12"))
        true)
        (Op.WriteHeader 404 :: ([[97], [98]] : List (List UInt8)).map Op.Write)).Header
        "X-Request-Id" = some ["7f3a"] :=
  ⟨(conversion_leaves_other_headers
      (recorderWith ((emptyHeader.Set "X-Request-Id" "7f3a").Set ContentLengthHeaderName "12"))
      true 404 [[97], [98]] "X-Request-Id" (by decide) (by decide)).2 (by decide),
    ((conversion_leaves_other_headers
      (recorderWith ((emptyHeader.Set "X-Request-Id" "7f3a").Set ContentLengthHeaderName "12"))
      true 404 [[97], [98]] "X-Request-Id" (by decide) (by decide)).1 (by decide)).trans
      (by decide)⟩

end Http2grpc
